import Mathlib

/-!
Verification development for the Movi transport-operations agent backend.

The definitions below are a shallow embedding of the Python sources:
`database.py` (the data model), `db_utils.py` (the data-service
operations), `agent.py` (the LangGraph turn orchestrator: consequence
checking, confirmation gate, tool execution) and `main.py` (the session
store).  Python floats (booking percentages, coordinates, timestamps)
are modelled as rationals, SQLAlchemy tables as Lean lists kept in
insertion order (a `filter_by(...).first()` becomes `List.find?`), and
the external reasoning service (the LLM) as an oracle parameter of the
per-turn transition function.  Mutation of a row found by a query is
modelled by updating the first matching list element.
-/

namespace Movi

/-! ## Argument values

Tool arguments in the source are JSON-ish dicts (string keys, scalar or
list-of-string values).  `Val` covers every argument type declared by
the sixteen tools in `tools.py`. -/

/-- A scalar or list value of a tool-argument mapping. -/
inductive Val where
  | str (s : String)
  | num (q : ℚ)
  | bool (b : Bool)
  | strList (l : List String)
  | null
deriving DecidableEq, Repr

/-- An argument mapping: string keys to values (Python dict). -/
abbrev Args := List (String × Val)

/-- Python `args.get(key, "")` for a string-typed argument. -/
def getStrArg (args : Args) (key : String) : String :=
  match args.find? (fun kv => kv.1 == key) with
  | some (_, .str s) => s
  | _ => ""

/-- Python `args.get(key, default)` for a numeric argument. -/
def getNumArg (args : Args) (key : String) (dflt : ℚ) : ℚ :=
  match args.find? (fun kv => kv.1 == key) with
  | some (_, .num q) => q
  | _ => dflt

/-- Python `args.get(key, default)` for a boolean argument. -/
def getBoolArg (args : Args) (key : String) (dflt : Bool) : Bool :=
  match args.find? (fun kv => kv.1 == key) with
  | some (_, .bool b) => b
  | _ => dflt

/-- Python `args.get(key, [])` for a list-of-strings argument. -/
def getStrListArg (args : Args) (key : String) : List String :=
  match args.find? (fun kv => kv.1 == key) with
  | some (_, .strList l) => l
  | _ => []

/-- Python `args.get(key)` for an `Optional[str]` argument (`None` when
absent or explicitly null). -/
def getOptStrArg (args : Args) (key : String) : Option String :=
  match args.find? (fun kv => kv.1 == key) with
  | some (_, .str s) => some s
  | _ => none

/-! ## Data model (`database.py`) -/

/-- Row of the `stops` table. -/
structure Stop where
  stop_id : Nat
  name : String
  latitude : ℚ
  longitude : ℚ
deriving DecidableEq, Repr

/-- Row of the `paths` table (`ordered_list_of_stop_ids` is a JSON array). -/
structure Path where
  path_id : Nat
  path_name : String
  ordered_list_of_stop_ids : List Nat
deriving DecidableEq, Repr

/-- Row of the `routes` table. -/
structure Route where
  route_id : Nat
  path_id : Nat
  route_display_name : String
  shift_time : String
  direction : String
  start_point : String
  end_point : String
  status : String
deriving DecidableEq, Repr

/-- Row of the `vehicles` table. -/
structure Vehicle where
  vehicle_id : Nat
  license_plate : String
  type : String
  capacity : Nat
deriving DecidableEq, Repr

/-- Row of the `drivers` table. -/
structure Driver where
  driver_id : Nat
  name : String
  phone_number : String
deriving DecidableEq, Repr

/-- Row of the `daily_trips` table. -/
structure DailyTrip where
  trip_id : Nat
  route_id : Nat
  display_name : String
  booking_status_percentage : ℚ
  live_status : String
deriving DecidableEq, Repr

/-- Row of the `deployments` table (nullable vehicle/driver columns). -/
structure Deployment where
  deployment_id : Nat
  trip_id : Nat
  vehicle_id : Option Nat
  driver_id : Option Nat
deriving DecidableEq, Repr

/-- The whole relational database, each table in insertion order. -/
structure DB where
  stops : List Stop
  paths : List Path
  routes : List Route
  vehicles : List Vehicle
  drivers : List Driver
  trips : List DailyTrip
  deployments : List Deployment
deriving DecidableEq, Repr

/-! ## List helpers modelling SQLAlchemy row updates and deletes -/

/-- Update the first element satisfying `p` (the row a `first()` query
returned and that the session then mutated). -/
def updateFirst (p : α → Bool) (f : α → α) : List α → List α
  | [] => []
  | a :: l => if p a then f a :: l else a :: updateFirst p f l

/-- Delete the first element satisfying `p` (`session.delete` of the row
a `first()` query returned). -/
def removeFirst (p : α → Bool) : List α → List α
  | [] => []
  | a :: l => if p a then l else a :: removeFirst p l

/-- Next autoincrement value for a table: one more than the largest
present id. -/
def nextId (ids : List Nat) : Nat :=
  ids.foldr max 0 + 1

/-! ## Read operations (`db_utils.py`) -/

/-- Pretty-print a percentage the way Python prints the float column
(integral values carry a trailing `.0`). -/
def pctStr (q : ℚ) : String :=
  if q.den = 1 then toString q.num ++ ".0" else toString q

/-- Embeds `db_utils.query_trip_status`. -/
def query_trip_status (db : DB) (trip_name : String) : String :=
  match db.trips.find? (fun t => t.display_name == trip_name) with
  | none => "Trip '" ++ trip_name ++ "' not found."
  | some trip =>
    let deployment := db.deployments.find? (fun d => d.trip_id == trip.trip_id)
    let vehicle_info :=
      match deployment with
      | some d =>
        match d.vehicle_id with
        | some vid =>
          match db.vehicles.find? (fun v => v.vehicle_id == vid) with
          | some v => ", Vehicle: " ++ v.license_plate
          | none => ""
        | none => ""
      | none => ""
    let driver_info :=
      match deployment with
      | some d =>
        match d.driver_id with
        | some did =>
          match db.drivers.find? (fun dr => dr.driver_id == did) with
          | some dr => ", Driver: " ++ dr.name
          | none => ""
        | none => ""
      | none => ""
    "Trip '" ++ trip_name ++ "': Status: " ++ trip.live_status ++
      ", Booking: " ++ pctStr trip.booking_status_percentage ++ "%" ++
      vehicle_info ++ driver_info

/-- Embeds `db_utils.query_trip_booking_details`. -/
def query_trip_booking_details (db : DB) (trip_name : String) : String :=
  match db.trips.find? (fun t => t.display_name == trip_name) with
  | none => "Trip '" ++ trip_name ++ "' not found."
  | some trip =>
    "Trip '" ++ trip_name ++ "' is " ++ pctStr trip.booking_status_percentage ++ "% booked."

/-- Result of `db_utils.check_trip_has_bookings` (a Python dict with
keys `has_bookings` and `percentage`). -/
structure BookingStatus where
  has_bookings : Bool
  percentage : ℚ
deriving DecidableEq, Repr

/-- Embeds `db_utils.check_trip_has_bookings`: the Consequence
Evaluator's booking query.  An unknown trip name reports no bookings
and percentage `0`. -/
def check_trip_has_bookings (db : DB) (trip_name : String) : BookingStatus :=
  match db.trips.find? (fun t => t.display_name == trip_name) with
  | none => { has_bookings := false, percentage := 0 }
  | some trip =>
    { has_bookings := decide (trip.booking_status_percentage > 0)
      percentage := trip.booking_status_percentage }

/-- Result of `db_utils.check_route_has_active_trips` (a Python dict
with keys `has_trips` and `count`). -/
structure TripCount where
  has_trips : Bool
  count : Nat
deriving DecidableEq, Repr

/-- Embeds `db_utils.check_route_has_active_trips`: counts the daily
trips whose `route_id` references the named route.  An unknown route
name reports no trips and count `0`. -/
def check_route_has_active_trips (db : DB) (route_name : String) : TripCount :=
  match db.routes.find? (fun r => r.route_display_name == route_name) with
  | none => { has_trips := false, count := 0 }
  | some route =>
    let trips := db.trips.filter (fun t => t.route_id == route.route_id)
    { has_trips := decide (trips.length > 0), count := trips.length }

/-- Embeds `db_utils.query_unassigned_vehicles`. -/
def query_unassigned_vehicles (db : DB) : String :=
  let assigned_ids := (db.deployments.filterMap (fun d => d.vehicle_id))
  let unassigned := db.vehicles.filter (fun v => !(assigned_ids.contains v.vehicle_id))
  if unassigned.isEmpty then
    "All vehicles are currently assigned."
  else
    let vehicle_list :=
      String.intercalate ", " (unassigned.map (fun v => v.license_plate ++ " (" ++ v.type ++ ")"))
    "Unassigned vehicles (" ++ toString unassigned.length ++ "): " ++ vehicle_list

/-- Embeds `db_utils.query_vehicle_details`. -/
def query_vehicle_details (db : DB) (license_plate : String) : String :=
  match db.vehicles.find? (fun v => v.license_plate == license_plate) with
  | none => "Vehicle '" ++ license_plate ++ "' not found."
  | some vehicle =>
    let deployment := db.deployments.find? (fun d => d.vehicle_id == some vehicle.vehicle_id)
    let assignment_status :=
      match deployment with
      | some d =>
        match db.trips.find? (fun t => t.trip_id == d.trip_id) with
        | some trip => "Assigned to trip '" ++ trip.display_name ++ "'"
        | none => "Not assigned"
      | none => "Not assigned"
    "Vehicle " ++ vehicle.license_plate ++ ": Type: " ++ vehicle.type ++
      ", Capacity: " ++ toString vehicle.capacity ++ ", Status: " ++ assignment_status

/-- Embeds `db_utils.query_drivers` (the first ten drivers are listed,
any surplus is summarised). -/
def query_drivers (db : DB) (assigned_only : Bool) : String :=
  let drivers :=
    if assigned_only then
      let assigned_ids := db.deployments.filterMap (fun d => d.driver_id)
      db.drivers.filter (fun d => assigned_ids.contains d.driver_id)
    else db.drivers
  if drivers.isEmpty then
    "No drivers found."
  else
    let driver_list :=
      String.intercalate ", " ((drivers.take 10).map (fun d => d.name ++ " (" ++ d.phone_number ++ ")"))
    let driver_list :=
      if drivers.length > 10 then
        driver_list ++ ", ... and " ++ toString (drivers.length - 10) ++ " more"
      else driver_list
    "Drivers (" ++ toString drivers.length ++ "): " ++ driver_list

/-- Embeds `db_utils.query_stops_for_path` (stop ids that resolve to no
row are skipped, as in the source loop). -/
def query_stops_for_path (db : DB) (path_name : String) : String :=
  match db.paths.find? (fun p => p.path_name == path_name) with
  | none => "Path '" ++ path_name ++ "' not found."
  | some path =>
    let stop_names := path.ordered_list_of_stop_ids.filterMap
      (fun sid => (db.stops.find? (fun st => st.stop_id == sid)).map (fun st => st.name))
    "Path '" ++ path_name ++ "' stops: " ++ String.intercalate " → " stop_names

/-- Embeds `db_utils.query_routes_for_path`. -/
def query_routes_for_path (db : DB) (path_name : String) : String :=
  match db.paths.find? (fun p => p.path_name == path_name) with
  | none => "Path '" ++ path_name ++ "' not found."
  | some path =>
    let routes := db.routes.filter (fun r => r.path_id == path.path_id)
    if routes.isEmpty then
      "No routes found for path '" ++ path_name ++ "'."
    else
      let route_list :=
        String.intercalate ", " (routes.map (fun r => r.route_display_name ++ " (" ++ r.status ++ ")"))
      "Routes for '" ++ path_name ++ "' (" ++ toString routes.length ++ "): " ++ route_list

/-- Embeds `db_utils.query_all_routes`. -/
def query_all_routes (db : DB) (status : Option String) : String :=
  let routes : List Route :=
    match status with
    | some st => db.routes.filter (fun r => r.status == st)
    | none => db.routes
  if routes.isEmpty then
    "No routes found" ++ (match status with
      | some st => " with status " ++ st
      | none => "") ++ "."
  else
    let route_list :=
      String.intercalate "\n" ((routes.take 10).map (fun r =>
        "- " ++ r.route_display_name ++ ": " ++ r.start_point ++ " → " ++ r.end_point ++
          " (" ++ r.status ++ ")"))
    let route_list :=
      if routes.length > 10 then
        route_list ++ "\n... and " ++ toString (routes.length - 10) ++ " more routes"
      else route_list
    "Routes (" ++ toString routes.length ++ "):\n" ++ route_list

/-! ## Create operations (`db_utils.py`)

Each returns the updated database together with the result text.  The
`try/except` wrappers of the source catch engine-level failures; in
this pure model the only failure paths are the explicit not-found /
already-exists checks, which return the same `❌`-or-plain messages the
source returns without raising. -/

/-- Embeds `db_utils.create_stop`. -/
def create_stop (db : DB) (stop_name : String) (latitude longitude : ℚ) : DB × String :=
  match db.stops.find? (fun st => st.name == stop_name) with
  | some _ => (db, "Stop '" ++ stop_name ++ "' already exists.")
  | none =>
    let sid := nextId (db.stops.map (fun st => st.stop_id))
    let new_stop : Stop := ⟨sid, stop_name, latitude, longitude⟩
    ({ db with stops := db.stops ++ [new_stop] },
     "✅ Created stop '" ++ stop_name ++ "' (ID: " ++ toString sid ++ ") at (" ++
       toString latitude ++ ", " ++ toString longitude ++ ")")

/-- Look up each stop name in order, failing on the first unknown one
(the loop of `db_utils.create_path`). -/
def resolveStopIds (db : DB) : List String → Except String (List Nat)
  | [] => .ok []
  | n :: ns =>
    match db.stops.find? (fun st => st.name == n) with
    | none => .error n
    | some st =>
      match resolveStopIds db ns with
      | .error m => .error m
      | .ok ids => .ok (st.stop_id :: ids)

/-- Embeds `db_utils.create_path`. -/
def create_path (db : DB) (path_name : String) (stop_names : List String) : DB × String :=
  match db.paths.find? (fun p => p.path_name == path_name) with
  | some _ => (db, "Path '" ++ path_name ++ "' already exists.")
  | none =>
    match resolveStopIds db stop_names with
    | .error n => (db, "❌ Stop '" ++ n ++ "' not found. Please create it first.")
    | .ok stop_ids =>
      let pid := nextId (db.paths.map (fun p => p.path_id))
      ({ db with paths := db.paths ++ [⟨pid, path_name, stop_ids⟩] },
       "✅ Created path '" ++ path_name ++ "' (ID: " ++ toString pid ++ ") with " ++
         toString stop_ids.length ++ " stops")

/-- Embeds `db_utils.create_route`. -/
def create_route (db : DB) (path_name shift_time direction : String) : DB × String :=
  match db.paths.find? (fun p => p.path_name == path_name) with
  | none => (db, "❌ Path '" ++ path_name ++ "' not found.")
  | some path =>
    let start_point :=
      match path.ordered_list_of_stop_ids.head? with
      | some sid =>
        match db.stops.find? (fun st => st.stop_id == sid) with
        | some st => st.name
        | none => "Unknown"
      | none => "Unknown"
    let end_point :=
      match path.ordered_list_of_stop_ids.getLast? with
      | some sid =>
        match db.stops.find? (fun st => st.stop_id == sid) with
        | some st => st.name
        | none => "Unknown"
      | none => "Unknown"
    let route_display_name := path_name ++ " - " ++ shift_time
    let rid := nextId (db.routes.map (fun r => r.route_id))
    ({ db with routes := db.routes ++
        [⟨rid, path.path_id, route_display_name, shift_time, direction, start_point, end_point, "active"⟩] },
     "✅ Created route '" ++ route_display_name ++ "' (ID: " ++ toString rid ++ ")")

/-- Embeds `db_utils.create_daily_trip` (also creates the empty
deployment row for the new trip). -/
def create_daily_trip (db : DB) (route_name display_name : String)
    (booking_percentage : ℚ) (live_status : String) : DB × String :=
  match db.routes.find? (fun r => r.route_display_name == route_name) with
  | none => (db, "❌ Route '" ++ route_name ++ "' not found.")
  | some route =>
    match db.trips.find? (fun t => t.display_name == display_name) with
    | some _ => (db, "❌ Trip '" ++ display_name ++ "' already exists.")
    | none =>
      if !(0 ≤ booking_percentage ∧ booking_percentage ≤ 100 : Bool) then
        (db, "❌ Booking percentage must be between 0 and 100.")
      else
        let tid := nextId (db.trips.map (fun t => t.trip_id))
        let did := nextId (db.deployments.map (fun d => d.deployment_id))
        ({ db with
            trips := db.trips ++ [⟨tid, route.route_id, display_name, booking_percentage, live_status⟩]
            deployments := db.deployments ++ [⟨did, tid, none, none⟩] },
         "✅ Created daily trip '" ++ display_name ++ "' (ID: " ++ toString tid ++
           ") for route '" ++ route_name ++ "'")

/-- Embeds `db_utils.create_deployment` (the `assign_vehicle_and_driver`
tool). -/
def create_deployment (db : DB) (trip_name vehicle_license driver_name : String) : DB × String :=
  match db.trips.find? (fun t => t.display_name == trip_name) with
  | none => (db, "❌ Trip '" ++ trip_name ++ "' not found.")
  | some trip =>
    match db.vehicles.find? (fun v => v.license_plate == vehicle_license) with
    | none => (db, "❌ Vehicle '" ++ vehicle_license ++ "' not found.")
    | some vehicle =>
      match db.drivers.find? (fun dr => dr.name == driver_name) with
      | none => (db, "❌ Driver '" ++ driver_name ++ "' not found.")
      | some driver =>
        let existing := db.deployments.find? (fun d => d.trip_id == trip.trip_id)
        match existing with
        | some _ =>
          let deployments' := updateFirst (fun d => d.trip_id == trip.trip_id)
            (fun d => { d with vehicle_id := some vehicle.vehicle_id,
                               driver_id := some driver.driver_id }) db.deployments
          ({ db with deployments := deployments' },
           "✅ Updated deployment: " ++ vehicle_license ++ " with driver " ++ driver_name ++
             " assigned to '" ++ trip_name ++ "'")
        | none =>
          let did := nextId (db.deployments.map (fun d => d.deployment_id))
          ({ db with deployments := db.deployments ++
              [⟨did, trip.trip_id, some vehicle.vehicle_id, some driver.driver_id⟩] },
           "✅ Created deployment: " ++ vehicle_license ++ " with driver " ++ driver_name ++
             " assigned to '" ++ trip_name ++ "'")

/-! ## Delete and update operations (`db_utils.py`) -/

/-- Embeds `db_utils.delete_daily_trip`: deletes the trip row and its
deployment row.  Consequence checking happens in the agent, not here. -/
def delete_daily_trip (db : DB) (trip_name : String) : DB × String :=
  match db.trips.find? (fun t => t.display_name == trip_name) with
  | none => (db, "❌ Trip '" ++ trip_name ++ "' not found.")
  | some trip =>
    let deployment := db.deployments.find? (fun d => d.trip_id == trip.trip_id)
    let has_vehicle := match deployment with
      | some d => d.vehicle_id.isSome
      | none => false
    let has_driver := match deployment with
      | some d => d.driver_id.isSome
      | none => false
    let db' := { db with
      deployments := match deployment with
        | some _ => removeFirst (fun d => d.trip_id == trip.trip_id) db.deployments
        | none => db.deployments
      trips := removeFirst (fun t => t.display_name == trip_name) db.trips }
    let assignment_info := if has_vehicle || has_driver then " (freed up assigned vehicle/driver)" else ""
    let booking_info :=
      if trip.booking_status_percentage > 0 then
        " [had " ++ pctStr trip.booking_status_percentage ++ "% bookings]"
      else ""
    (db', "✅ Deleted daily trip '" ++ trip_name ++ "' (ID: " ++ toString trip.trip_id ++ ")" ++
      assignment_info ++ booking_info)

/-- Embeds `db_utils.delete_vehicle_from_trip` (the
`remove_vehicle_from_trip` tool): clears the vehicle column of the
trip's deployment, keeping the driver. -/
def delete_vehicle_from_trip (db : DB) (trip_name : String) : DB × String :=
  match db.trips.find? (fun t => t.display_name == trip_name) with
  | none => (db, "❌ Trip '" ++ trip_name ++ "' not found.")
  | some trip =>
    match db.deployments.find? (fun d => d.trip_id == trip.trip_id) with
    | none => (db, "No vehicle assigned to trip '" ++ trip_name ++ "'.")
    | some deployment =>
      match deployment.vehicle_id with
      | none => (db, "No vehicle assigned to trip '" ++ trip_name ++ "'.")
      | some vid =>
        let vehicle_name :=
          match db.vehicles.find? (fun v => v.vehicle_id == vid) with
          | some v => v.license_plate
          | none => "Unknown"
        let deployments' := updateFirst (fun d => d.trip_id == trip.trip_id)
          (fun d => { d with vehicle_id := none }) db.deployments
        ({ db with deployments := deployments' },
         "✅ Removed vehicle " ++ vehicle_name ++ " from trip '" ++ trip_name ++ "'")

/-- Embeds `db_utils.deactivate_route`: a no-op (with an explanatory
message) when the route is missing or already deactivated. -/
def deactivate_route (db : DB) (route_name : String) : DB × String :=
  match db.routes.find? (fun r => r.route_display_name == route_name) with
  | none => (db, "❌ Route '" ++ route_name ++ "' not found.")
  | some route =>
    if route.status == "deactivated" then
      (db, "Route '" ++ route_name ++ "' is already deactivated.")
    else
      let routes' := updateFirst (fun r => r.route_display_name == route_name)
        (fun r => { r with status := "deactivated" }) db.routes
      ({ db with routes := routes' },
       "✅ Route '" ++ route_name ++ "' has been deactivated")

/-! ## Output formatting (`agent.py` helpers)

`format_trip_status` in the source applies the regex
`Trip '(.+?)': Status: ([^,]+), Booking: ([\d\.]+)%(?:, Vehicle: ([^,]+))?(?:, Driver: (.+))?`
with `re.match` (anchored at the start only).  The parser below follows
that pattern literally: the lazy `.+?` is the prefix before the first
occurrence of the following literal, the negated classes stop at the
first comma, `.` never crosses a newline, and trailing unmatched text
is ignored because the pattern has no end anchor. -/

/-- Python `str.lower()`: lower-case character by character.  Defined
over the character list so that concrete instances evaluate by
kernel reduction. -/
def pyLower (s : String) : String :=
  String.mk (s.data.map Char.toLower)

/-- Python `str.upper()`: upper-case character by character. -/
def pyUpper (s : String) : String :=
  String.mk (s.data.map Char.toUpper)

/-- Python `str.strip()`: drop whitespace from both ends.  Defined over
the character list so that it stays provable on strings built by
concatenation. -/
def pyStrip (s : String) : String :=
  String.mk (((s.data.dropWhile Char.isWhitespace).reverse.dropWhile Char.isWhitespace).reverse)

/-- Split at the first occurrence of `sep`; `none` when `sep` does not
occur in `s`. -/
def splitFirst (s sep : String) : Option (String × String) :=
  match s.splitOn sep with
  | [] => none
  | [_] => none
  | a :: b :: rest => some (a, String.intercalate sep (b :: rest))

/-- The capture groups of the trip-status regex in `agent.py`. -/
structure TripStatusParts where
  trip : String
  status : String
  booking : String
  vehicle : Option String
  driver : Option String
deriving DecidableEq, Repr

/-- The trip-status regex of `agent.py:format_trip_status`, as a
deterministic parser (see the section comment for the correspondence). -/
def parse_trip_status (text : String) : Option TripStatusParts :=
  if !text.startsWith "Trip '" then none
  else
    let rest := text.drop 6
    match splitFirst rest "': Status: " with
    | none => none
    | some (trip, rest1) =>
      if trip.isEmpty || trip.contains '\n' then none
      else
        match splitFirst rest1 "," with
        | none => none
        | some (status, after) =>
          if status.isEmpty then none
          else if !after.startsWith " Booking: " then none
          else
            let rest2 := after.drop 10
            let booking := rest2.takeWhile (fun c => c.isDigit || c == '.')
            if booking.isEmpty then none
            else
              let rest3 := rest2.drop booking.length
              if !rest3.startsWith "%" then none
              else
                let rest4 := rest3.drop 1
                let vehicleRest : Option String × String :=
                  if rest4.startsWith ", Vehicle: " then
                    let vrem := rest4.drop 11
                    match splitFirst vrem "," with
                    | none => if vrem.isEmpty then (none, rest4) else (some vrem, "")
                    | some (v, afterV) =>
                      if v.isEmpty then (none, rest4) else (some v, "," ++ afterV)
                  else (none, rest4)
                let driver : Option String :=
                  if vehicleRest.2.startsWith ", Driver: " then
                    let drem := vehicleRest.2.drop 10
                    let d := drem.takeWhile (fun c => c != '\n')
                    if d.isEmpty then none else some d
                  else none
                some ⟨trip, status, booking, vehicleRest.1, driver⟩

/-- Embeds `agent.py:speakable_identifier`: spell out a dash-separated
identifier character by character for text-to-speech. -/
def speakable_identifier (identifier : String) : String :=
  if identifier.isEmpty then ""
  else
    let parts := (identifier.splitOn "-").filterMap (fun seg =>
      let cleaned := pyStrip seg
      if cleaned.isEmpty then none
      else some (String.intercalate " " ((pyUpper cleaned).data.map (fun c => toString c))))
    String.intercalate " dash " parts

/-- Membership test of `agent.py`: `x.lower() in {"none", "null", "n/a"}`. -/
def isNullish (s : String) : Bool :=
  ["none", "null", "n/a"].contains (pyLower s)

/-- Embeds `agent.py:format_trip_status`: rebuild a parsed trip status
as speakable sentences; unparseable text is returned unchanged. -/
def format_trip_status (raw_text : String) : String :=
  let text := pyStrip raw_text
  match parse_trip_status text with
  | none => text
  | some parts =>
    let trip_name := parts.trip
    let status := pyStrip parts.status
    let booking := pyStrip parts.booking
    let booking := if booking.endsWith ".0" then booking.dropRight 2 else booking
    let sentences := ["The " ++ trip_name ++ " trip is currently " ++ status ++ ".",
                      "It's " ++ booking ++ " percent booked."]
    let sentences := sentences ++
      (match parts.vehicle with
       | some v => if !isNullish v then ["The assigned vehicle is " ++ speakable_identifier v ++ "."]
                   else ["There is no vehicle assigned right now."]
       | none => ["There is no vehicle assigned right now."])
    let sentences := sentences ++
      (match parts.driver with
       | some d => if !isNullish d then ["The driver on duty is " ++ d ++ "."]
                   else ["No driver has been assigned yet."]
       | none => ["No driver has been assigned yet."])
    String.intercalate " " sentences

/-- Embeds `agent.py:format_tool_output`: error messages pass through
untouched; `get_trip_status` output is reformatted for speech. -/
def format_tool_output (tool_name : String) (raw_result : String) : String :=
  let text := pyStrip raw_result
  if (pyLower text).startsWith "error" then text
  else if tool_name == "get_trip_status" then format_trip_status text
  else text

/-! ## Conversation data model (`agent.py`)

LangChain message classes become one `Message` structure tagged by a
role; a `HumanMessage` (which has no `tool_calls` attribute) is a
message with the `user` role and an empty invocation list, so the
source's `hasattr(msg, "tool_calls") and msg.tool_calls` test becomes
a plain emptiness test here. -/

/-- The role of a conversational message. -/
inductive Role where
  | user
  | assistant
  | tool
  | system
deriving DecidableEq, Repr

/-- A proposed tool invocation: action name, argument mapping,
correlation id. -/
structure ToolCall where
  name : String
  args : Args
  id : String
deriving DecidableEq, Repr

/-- One conversational message. -/
structure Message where
  role : Role
  content : String
  tool_calls : List ToolCall := []
  tool_call_id : String := ""
deriving DecidableEq, Repr

/-- A user message (LangChain `HumanMessage`). -/
def HumanMessage (content : String) : Message :=
  { role := .user, content := content }

/-- An assistant text message (LangChain `AIMessage` without tool calls). -/
def AIMessage (content : String) : Message :=
  { role := .assistant, content := content }

/-- A tool-result message (LangChain `ToolMessage`). -/
def ToolMessage (content : String) (tool_call_id : String) : Message :=
  { role := .tool, content := content, tool_call_id := tool_call_id }

/-- The `consequence_info` dict of `agent.py:check_consequences`, one
variant per risk category with its subject and quantitative impact. -/
inductive ConsequenceInfo where
  | vehicle_removal (trip_name : String) (booking_percentage : ℚ)
  | trip_deletion (trip_name : String) (booking_percentage : ℚ)
  | route_deactivation (route_name : String) (active_trips : Nat)
deriving DecidableEq, Repr

/-- The orchestration state (`AgentState` of `agent.py`, which is also
what the session store holds between turns).  The transient
`image_data` attachment slot is consumed before the graph's routing
logic runs and is not part of the orchestration model. -/
structure AgentState where
  messages : List Message
  currentPage : String
  confirmation_pending : Bool
  action_to_confirm : Option ToolCall
  consequence_info : Option ConsequenceInfo
deriving DecidableEq, Repr

/-! ## Tool Registry and Action Executor (`agent.py`) -/

/-- The names in `agent.py:get_all_tools` — the Tool Registry keys used
by `call_tool` and `handle_confirmation` to dispatch invocations. -/
def tool_names : List String :=
  ["get_trip_status", "get_unassigned_vehicles", "list_stops_for_path",
   "list_routes_for_path", "create_daily_trip", "assign_vehicle_and_driver",
   "delete_daily_trip", "remove_vehicle_from_trip", "create_new_stop",
   "create_new_path", "create_new_route", "deactivate_route",
   "list_all_routes", "get_all_drivers", "get_trip_bookings",
   "get_vehicle_details"]

/-- Dispatch a registered tool to its `db_utils` operation (`tools.py`),
returning the updated database and the result text.  Argument
extraction mirrors each tool's declared signature and defaults.  The
fallback branch is unreachable from the agent, which checks membership
in `tool_names` before invoking. -/
def invoke_tool (db : DB) (name : String) (args : Args) : DB × String :=
  if name == "get_trip_status" then
    (db, query_trip_status db (getStrArg args "trip_name"))
  else if name == "get_unassigned_vehicles" then
    (db, query_unassigned_vehicles db)
  else if name == "get_trip_bookings" then
    (db, query_trip_booking_details db (getStrArg args "trip_name"))
  else if name == "list_stops_for_path" then
    (db, query_stops_for_path db (getStrArg args "path_name"))
  else if name == "list_routes_for_path" then
    (db, query_routes_for_path db (getStrArg args "path_name"))
  else if name == "list_all_routes" then
    (db, query_all_routes db (getOptStrArg args "status"))
  else if name == "create_daily_trip" then
    create_daily_trip db (getStrArg args "route_name") (getStrArg args "display_name")
      (getNumArg args "booking_percentage" 0) (getStrArg args "live_status")
  else if name == "assign_vehicle_and_driver" then
    create_deployment db (getStrArg args "trip_name") (getStrArg args "vehicle_license")
      (getStrArg args "driver_name")
  else if name == "delete_daily_trip" then
    delete_daily_trip db (getStrArg args "trip_name")
  else if name == "remove_vehicle_from_trip" then
    delete_vehicle_from_trip db (getStrArg args "trip_name")
  else if name == "create_new_stop" then
    create_stop db (getStrArg args "stop_name") (getNumArg args "latitude" 0)
      (getNumArg args "longitude" 0)
  else if name == "create_new_path" then
    create_path db (getStrArg args "path_name") (getStrListArg args "stop_names")
  else if name == "create_new_route" then
    create_route db (getStrArg args "path_name") (getStrArg args "shift_time")
      (getStrArg args "direction")
  else if name == "deactivate_route" then
    deactivate_route db (getStrArg args "route_name")
  else if name == "get_all_drivers" then
    (db, query_drivers db (getBoolArg args "assigned_only" false))
  else if name == "get_vehicle_details" then
    (db, query_vehicle_details db (getStrArg args "license_plate"))
  else
    (db, "Error: Tool '" ++ name ++ "' not found")

/-- One entry of the data-service interaction trace of a turn: either
an Action Executor invocation of a registered tool, or one of the
Consequence Evaluator's read-only lookup queries. -/
inductive TraceEntry where
  | toolExec (name : String) (args : Args)
  | dbQuery (name : String) (arg : String)
deriving DecidableEq, Repr

/-- The Action Executor invocations recorded in a trace, in order. -/
def execEntries : List TraceEntry → List (String × Args)
  | [] => []
  | .toolExec n a :: t => (n, a) :: execEntries t
  | .dbQuery _ _ :: t => execEntries t

/-- One iteration of the `call_tool` loop in `agent.py`: execute a
single proposed invocation (or report an unknown tool) and produce its
tool-result message. -/
def exec_tool_call (db : DB) (tc : ToolCall) : DB × Message × List TraceEntry :=
  if tool_names.contains tc.name then
    let r := invoke_tool db tc.name tc.args
    (r.1, ToolMessage (format_tool_output tc.name r.2) tc.id, [.toolExec tc.name tc.args])
  else
    (db, ToolMessage ("Error: Tool '" ++ tc.name ++ "' not found") tc.id, [])

/-- The full `call_tool` loop: execute every proposed invocation in
order, threading the database. -/
def exec_tool_calls (db : DB) : List ToolCall → DB × List Message × List TraceEntry
  | [] => (db, [], [])
  | tc :: rest =>
    let r1 := exec_tool_call db tc
    let r2 := exec_tool_calls r1.1 rest
    (r2.1, r1.2.1 :: r2.2.1, r1.2.2 ++ r2.2.2)

/-- Embeds the `call_tool` node of `agent.py`: executes the tool calls
of the newest message and appends their result messages. -/
def call_tool (db : DB) (s : AgentState) : DB × AgentState × List TraceEntry :=
  match s.messages.getLast? with
  | none => (db, s, [])
  | some last =>
    if last.tool_calls.isEmpty then (db, s, [])
    else
      let r := exec_tool_calls db last.tool_calls
      (r.1, { s with messages := s.messages ++ r.2.1 }, r.2.2)

/-! ## Consequence Evaluator (`agent.py:check_consequences`) -/

/-- The paused-action acknowledgment appended when a risky invocation
is intercepted. -/
def pause_message (tool_call_id : String) : Message :=
  ToolMessage "⏸️ Action paused pending confirmation. No changes made yet." tool_call_id

/-- Warning text for `remove_vehicle_from_trip` against a booked trip. -/
def vehicle_removal_warning (trip_name : String) (percentage : ℚ) : String :=
  "⚠️ CONSEQUENCE WARNING\n\nI can remove the vehicle from '" ++ trip_name ++
    "'. However, please be aware that:\n\n• This trip is currently " ++ pctStr percentage ++
    "% booked by employees\n• Removing the vehicle will cancel these bookings\n" ++
    "• Trip-sheet generation will fail\n• Affected employees will need to be notified\n\n" ++
    "This is a high-impact operation.\n\n" ++
    "❓ Do you want to proceed? (Reply 'yes' to confirm or 'no' to cancel)"

/-- Warning text for `delete_daily_trip` against a booked trip. -/
def trip_deletion_warning (trip_name : String) (percentage : ℚ) : String :=
  "⚠️ CONSEQUENCE WARNING\n\nI can delete the trip '" ++ trip_name ++
    "'. However, please be aware that:\n\n• This trip is currently " ++ pctStr percentage ++
    "% booked by employees\n• Deleting this trip will permanently remove all bookings\n" ++
    "• Assigned vehicle and driver will be freed up\n" ++
    "• Affected employees will need to be notified and rescheduled\n" ++
    "• This action cannot be undone\n\nThis is a high-impact operation.\n\n" ++
    "❓ Do you want to proceed? (Reply 'yes' to confirm or 'no' to cancel)"

/-- Warning text for `deactivate_route` against a route with trips. -/
def route_deactivation_warning (route_name : String) (count : Nat) : String :=
  "⚠️ CONSEQUENCE WARNING\n\nI can deactivate route '" ++ route_name ++
    "'. However, please be aware that:\n\n• This route currently has " ++ toString count ++
    " active trip(s)\n• Deactivating will affect these trips\n" ++
    "• New bookings will be disabled\n• Existing schedules may need adjustment\n\n" ++
    "This is a high-impact operation.\n\n" ++
    "❓ Do you want to proceed? (Reply 'yes' to confirm or 'no' to cancel)"

/-- Embeds the `check_consequences` node of `agent.py`: inspect the
first tool call of the newest message; for the three high-risk actions
query current bookings/trips and, when impact is found, pause the
action (set `confirmation_pending`, store the invocation and a
`ConsequenceInfo`, append the pause acknowledgment and warning).  Its
database access is read-only, which the return type makes explicit:
only a trace of lookup queries comes back, never an updated database. -/
def check_consequences (db : DB) (s : AgentState) : AgentState × List TraceEntry :=
  match s.messages.getLast? with
  | none => ({ s with confirmation_pending := false }, [])
  | some last =>
    match last.tool_calls.head? with
    | none => ({ s with confirmation_pending := false }, [])
    | some tc =>
      if tc.name == "remove_vehicle_from_trip" then
        let trip_name := getStrArg tc.args "trip_name"
        let status := check_trip_has_bookings db trip_name
        if status.has_bookings then
          ({ s with confirmation_pending := true,
                    action_to_confirm := some tc,
                    consequence_info := some (.vehicle_removal trip_name status.percentage),
                    messages := s.messages ++
                      [pause_message tc.id,
                       AIMessage (vehicle_removal_warning trip_name status.percentage)] },
           [.dbQuery "check_trip_has_bookings" trip_name])
        else
          ({ s with confirmation_pending := false },
           [.dbQuery "check_trip_has_bookings" trip_name])
      else if tc.name == "delete_daily_trip" then
        let trip_name := getStrArg tc.args "trip_name"
        let status := check_trip_has_bookings db trip_name
        if status.has_bookings then
          ({ s with confirmation_pending := true,
                    action_to_confirm := some tc,
                    consequence_info := some (.trip_deletion trip_name status.percentage),
                    messages := s.messages ++
                      [pause_message tc.id,
                       AIMessage (trip_deletion_warning trip_name status.percentage)] },
           [.dbQuery "check_trip_has_bookings" trip_name])
        else
          ({ s with confirmation_pending := false },
           [.dbQuery "check_trip_has_bookings" trip_name])
      else if tc.name == "deactivate_route" then
        let route_name := getStrArg tc.args "route_name"
        let trip_info := check_route_has_active_trips db route_name
        if trip_info.has_trips then
          ({ s with confirmation_pending := true,
                    action_to_confirm := some tc,
                    consequence_info := some (.route_deactivation route_name trip_info.count),
                    messages := s.messages ++
                      [pause_message tc.id,
                       AIMessage (route_deactivation_warning route_name trip_info.count)] },
           [.dbQuery "check_route_has_active_trips" route_name])
        else
          ({ s with confirmation_pending := false },
           [.dbQuery "check_route_has_active_trips" route_name])
      else
        ({ s with confirmation_pending := false }, [])

/-! ## Confirmation Gate (`agent.py:handle_confirmation`) -/

/-- The acceptance vocabulary of the Confirmation Gate. -/
def accept_words : List String :=
  ["yes", "y", "confirm", "proceed", "ok", "sure"]

/-- The rejection vocabulary of the Confirmation Gate. -/
def reject_words : List String :=
  ["no", "n", "cancel", "abort", "stop", "nope"]

/-- The cancellation acknowledgment of the reject branch. -/
def cancel_text : String :=
  "✋ Action cancelled\n\nThe operation was not performed. How else can I help you?"

/-- The re-ask message of the unclear branch. -/
def reask_text : String :=
  "I didn't understand your response. Please reply with:\n" ++
    "• 'yes' to proceed with the action\n• 'no' to cancel"

/-- Embeds the `handle_confirmation` node of `agent.py`.  A missing
pending invocation (or empty transcript) defensively clears the
confirmation flags; a newest message that is not from the user leaves
the state untouched; otherwise the normalized reply is classified as
accept (execute the pending invocation), reject (cancel) or unclear
(re-ask). -/
def handle_confirmation (db : DB) (s : AgentState) : DB × AgentState × List TraceEntry :=
  match s.messages.getLast?, s.action_to_confirm with
  | none, _ =>
    (db, { s with confirmation_pending := false, action_to_confirm := none }, [])
  | some _, none =>
    (db, { s with confirmation_pending := false, action_to_confirm := none }, [])
  | some last, some action =>
    if !(last.role == .user) then (db, s, [])
    else
      let user_response := pyStrip (pyLower last.content)
      if accept_words.contains user_response then
        if tool_names.contains action.name then
          let r := invoke_tool db action.name action.args
          let tool_output := r.2
          (r.1,
           { s with messages := s.messages ++
                      [ToolMessage tool_output action.id,
                       AIMessage ("✅ Action completed\n\n" ++ tool_output)],
                    confirmation_pending := false,
                    action_to_confirm := none,
                    consequence_info := none },
           [.toolExec action.name action.args])
        else
          let error_text := "Tool '" ++ action.name ++ "' not found"
          (db,
           { s with messages := s.messages ++
                      [ToolMessage ("Error: " ++ error_text) action.id,
                       AIMessage ("❌ " ++ error_text)],
                    confirmation_pending := false,
                    action_to_confirm := none,
                    consequence_info := none },
           [])
      else if reject_words.contains user_response then
        (db,
         { s with messages := s.messages ++ [AIMessage cancel_text],
                  confirmation_pending := false,
                  action_to_confirm := none,
                  consequence_info := none },
         [])
      else
        (db, { s with messages := s.messages ++ [AIMessage reask_text] }, [])

/-! ## Turn Orchestrator (`agent.py` routing and graph) -/

/-- The reasoning-service node: the LLM itself is external, so the
message it returns for this turn (a text reply, a response carrying
tool calls, or the static fallback reply produced when the service
call fails) enters the model as an oracle parameter, and the node
appends it to the transcript. -/
def call_model (s : AgentState) (response : Message) : AgentState :=
  { s with messages := s.messages ++ [response] }

/-- Target of the entry router. -/
inductive StartRoute where
  | to_confirmation
  | to_model
deriving DecidableEq, Repr

/-- Embeds `agent.py:start_router`: resolve an outstanding confirmation
first when the newest message is from the user. -/
def start_router (s : AgentState) : StartRoute :=
  if s.confirmation_pending then
    match s.messages.getLast? with
    | some last => if last.role == .user then .to_confirmation else .to_model
    | none => .to_model
  else .to_model

/-- Target of the post-model router. -/
inductive ModelRoute where
  | to_consequences
  | to_end
deriving DecidableEq, Repr

/-- Embeds `agent.py:should_continue_after_model`: proposed tool calls
go to consequence checking, a plain reply ends the turn. -/
def should_continue_after_model (s : AgentState) : ModelRoute :=
  match s.messages.getLast? with
  | some last => if !last.tool_calls.isEmpty then .to_consequences else .to_end
  | none => .to_end

/-- Target of the post-consequence router. -/
inductive ConseqRoute where
  | to_confirmation
  | to_tools
deriving DecidableEq, Repr

/-- Embeds `agent.py:should_get_confirmation`. -/
def should_get_confirmation (s : AgentState) : ConseqRoute :=
  if s.confirmation_pending then .to_confirmation else .to_tools

/-- The outcome of one full turn: final database, final session state,
and the trace of data-service interactions made during the turn. -/
structure TurnResult where
  db : DB
  state : AgentState
  trace : List TraceEntry
deriving DecidableEq, Repr

/-- One full turn of the compiled graph of `agent.py:create_movi_agent`:
`START → (start_router) → handle_confirmation | call_model`, then from
`call_model` through `check_consequences` to either the confirmation
pause or tool execution, each branch ending the turn. -/
def run_turn (db : DB) (s : AgentState) (llmResponse : Message) : TurnResult :=
  match start_router s with
  | .to_confirmation =>
    let r := handle_confirmation db s
    ⟨r.1, r.2.1, r.2.2⟩
  | .to_model =>
    let s1 := call_model s llmResponse
    match should_continue_after_model s1 with
    | .to_end => ⟨db, s1, []⟩
    | .to_consequences =>
      let r2 := check_consequences db s1
      match should_get_confirmation r2.1 with
      | .to_confirmation =>
        let r3 := handle_confirmation db r2.1
        ⟨r3.1, r3.2.1, r2.2 ++ r3.2.2⟩
      | .to_tools =>
        let r3 := call_tool db r2.1
        ⟨r3.1, r3.2.1, r2.2 ++ r3.2.2⟩

/-! ## Session Store (`main.py`) -/

/-- A stored session: the orchestration state plus the `last_access`
timestamp (absent on sessions predating the timestamp field). -/
structure StoredSession where
  state : AgentState
  last_access : Option ℚ
deriving DecidableEq, Repr

/-- `main.py:SESSION_TIMEOUT` (one hour, in seconds). -/
def SESSION_TIMEOUT : ℚ := 3600

/-- Embeds `main.py:cleanup_old_sessions`: drop every session whose age
strictly exceeds the timeout, and every session without a recorded
access time. -/
def cleanup_old_sessions (now : ℚ) (store : List (String × StoredSession)) :
    List (String × StoredSession) :=
  store.filter (fun kv =>
    match kv.2.last_access with
    | none => false
    | some t => !(now - t > SESSION_TIMEOUT : Bool))

/-! ## Supporting lemmas -/

/-- `find?` over an `updateFirst` with a predicate-preserving update
finds the updated element. -/
theorem find?_updateFirst (p : α → Bool) (f : α → α)
    (hpf : ∀ a, p (f a) = p a) :
    ∀ l : List α, (updateFirst p f l).find? p = (l.find? p).map f := by
  intro l
  induction l with
  | nil => rfl
  | cons a l ih =>
    by_cases h : p a = true
    · simp [updateFirst, h, List.find?_cons, hpf]
    · simp only [Bool.not_eq_true] at h
      simp [updateFirst, h, List.find?_cons, ih]

/-- `execEntries` distributes over trace concatenation. -/
theorem execEntries_append (t₁ t₂ : List TraceEntry) :
    execEntries (t₁ ++ t₂) = execEntries t₁ ++ execEntries t₂ := by
  induction t₁ with
  | nil => rfl
  | cons e t ih => cases e <;> simp [execEntries, ih]

/-- The trace of the full executor loop lists exactly the proposed
invocations when all of them are registered. -/
theorem execEntries_exec_tool_calls (db : DB) (calls : List ToolCall)
    (hreg : ∀ c ∈ calls, tool_names.contains c.name = true) :
    execEntries (exec_tool_calls db calls).2.2 =
      calls.map (fun c => (c.name, c.args)) := by
  induction calls generalizing db with
  | nil => rfl
  | cons c rest ih =>
    have hc : tool_names.contains c.name = true := hreg c (List.mem_cons_self c rest)
    have hc' : c.name ∈ tool_names := by simpa using hc
    have hrest : ∀ x ∈ rest, tool_names.contains x.name = true :=
      fun x hx => hreg x (List.mem_cons_of_mem c hx)
    simp [exec_tool_calls, exec_tool_call, hc, hc', execEntries_append, execEntries, ih _ hrest]

/-- The booking check reports risk exactly for a trip that exists and
has a positive booking percentage. -/
theorem check_trip_has_bookings_true_iff (db : DB) (n : String) :
    (check_trip_has_bookings db n).has_bookings = true ↔
      ∃ trip, db.trips.find? (fun t => t.display_name == n) = some trip ∧
        trip.booking_status_percentage > 0 := by
  unfold check_trip_has_bookings
  cases h : db.trips.find? (fun t => t.display_name == n) <;> simp [h]

/-- The trip-count check reports risk exactly for a route that exists
and is referenced by at least one daily trip. -/
theorem check_route_has_active_trips_true_iff (db : DB) (n : String) :
    (check_route_has_active_trips db n).has_trips = true ↔
      ∃ route, db.routes.find? (fun r => r.route_display_name == n) = some route ∧
        (db.trips.filter (fun t => t.route_id == route.route_id)).length > 0 := by
  unfold check_route_has_active_trips
  cases h : db.routes.find? (fun r => r.route_display_name == n) <;> simp [h]

/-! ## Concrete fixture used by the witness theorems -/

/-- A small concrete database: one path, one active route, a 25%-booked
trip with vehicle and driver deployed, and an unbooked trip with an
empty deployment. -/
def exampleDB : DB where
  stops := [⟨1, "Peenya", 12, 77⟩, ⟨2, "Whitefield", 13, 77⟩]
  paths := [⟨1, "Path-1", [1, 2]⟩]
  routes := [⟨1, 1, "Path-1 - 07:00", "07:00", "Inbound", "Peenya", "Whitefield", "active"⟩]
  vehicles := [⟨1, "KA-01-AB-1234", "Bus", 40⟩]
  drivers := [⟨1, "Rajesh Singh", "9999999999"⟩]
  trips := [⟨1, 1, "Bulk - 00:01", 25, "00:01 IN"⟩, ⟨2, 1, "Empty - 09:00", 0, "NOT STARTED"⟩]
  deployments := [⟨1, 1, some 1, some 1⟩, ⟨2, 2, none, none⟩]

/-- A fresh session state on the bus dashboard whose newest message is
the given user request. -/
def exampleState (text : String) : AgentState where
  messages := [HumanMessage text]
  currentPage := "busDashboard"
  confirmation_pending := false
  action_to_confirm := none
  consequence_info := none

/-- A reasoning-service response proposing a single invocation. -/
def proposal (name : String) (args : Args) : Message :=
  { role := .assistant, content := "", tool_calls := [⟨name, args, "call_1"⟩] }

/-! ## Claim theorems -/

/-- C10: `deactivate_route` is idempotent in effect: a route that is
already `deactivated` triggers no database mutation and just the
"already deactivated" message, so for every database and route name two
consecutive calls leave the database exactly as one call does. -/
theorem C10_deactivate_route_idempotent (db : DB) (route_name : String) :
    (deactivate_route (deactivate_route db route_name).1 route_name).1 =
      (deactivate_route db route_name).1 ∧
    (∀ r, db.routes.find? (fun r => r.route_display_name == route_name) = some r →
      r.status = "deactivated" →
      deactivate_route db route_name =
        (db, "Route '" ++ route_name ++ "' is already deactivated.")) := by
  constructor
  · cases h : db.routes.find? (fun r => r.route_display_name == route_name) with
    | none =>
      have e1 : (deactivate_route db route_name).1 = db := by
        simp [deactivate_route, h]
      rw [e1]
      simp [deactivate_route, h]
    | some r =>
      by_cases hs : r.status == "deactivated"
      · have e1 : (deactivate_route db route_name).1 = db := by
          simp [deactivate_route, h, hs]
        rw [e1]
        simp [deactivate_route, h, hs]
      · simp only [Bool.not_eq_true] at hs
        have e1 : (deactivate_route db route_name).1 = { db with routes := updateFirst (fun x => x.route_display_name == route_name) (fun x => { x with status := "deactivated" }) db.routes } := by
          simp [deactivate_route, h, hs]
        rw [e1]
        have e2 : (updateFirst (fun x => x.route_display_name == route_name) (fun x => { x with status := "deactivated" }) db.routes).find? (fun x => x.route_display_name == route_name) = some { r with status := "deactivated" } := by
          rw [find?_updateFirst (fun x : Route => x.route_display_name == route_name)
                (fun x => { x with status := "deactivated" }) (fun a => rfl), h]
          rfl
        simp [deactivate_route, e2]
  · intro r hr hs
    simp [deactivate_route, hr, hs]

/-- Witness for C10 at the concrete fixture: deactivating
`Path-1 - 07:00` twice equals deactivating it once, and re-deactivating
the already-deactivated route reports "already deactivated" without
touching the database. -/
theorem C10_witness :
    ((deactivate_route (deactivate_route exampleDB "Path-1 - 07:00").1 "Path-1 - 07:00").1 =
      (deactivate_route exampleDB "Path-1 - 07:00").1) ∧
    (deactivate_route (deactivate_route exampleDB "Path-1 - 07:00").1 "Path-1 - 07:00" =
      ((deactivate_route exampleDB "Path-1 - 07:00").1,
        "Route 'Path-1 - 07:00' is already deactivated.")) :=
  ⟨(C10_deactivate_route_idempotent exampleDB "Path-1 - 07:00").1,
   (C10_deactivate_route_idempotent (deactivate_route exampleDB "Path-1 - 07:00").1
      "Path-1 - 07:00").2
     ⟨1, 1, "Path-1 - 07:00", "07:00", "Inbound", "Peenya", "Whitefield", "deactivated"⟩
     (by decide) rfl⟩

/-- C7: the expiry sweep keeps a stored session exactly when it has a
recorded last access within the timeout: a session with no recorded
touch time, or one older than `SESSION_TIMEOUT`, is absent after the
sweep, and every session touched within the timeout is still present. -/
theorem C7_session_sweep_membership (now : ℚ) (store : List (String × StoredSession))
    (sid : String) (st : StoredSession) :
    (sid, st) ∈ cleanup_old_sessions now store ↔
      ((sid, st) ∈ store ∧ ∃ t, st.last_access = some t ∧ now - t ≤ SESSION_TIMEOUT) := by
  unfold cleanup_old_sessions
  rw [List.mem_filter]
  cases h : st.last_access with
  | none => simp [h]
  | some t => simp [h, not_lt]

/-- The confirmation-pending flag produced by the Consequence Evaluator,
as a function of the first proposed invocation's action name and the
two lookup queries. -/
theorem check_consequences_pending_eq
    (db : DB) (s : AgentState) (m : Message) (tc : ToolCall)
    (hlast : s.messages.getLast? = some m)
    (hhead : m.tool_calls.head? = some tc) :
    (check_consequences db s).1.confirmation_pending =
      (if tc.name == "remove_vehicle_from_trip" then
        (check_trip_has_bookings db (getStrArg tc.args "trip_name")).has_bookings
      else if tc.name == "delete_daily_trip" then
        (check_trip_has_bookings db (getStrArg tc.args "trip_name")).has_bookings
      else if tc.name == "deactivate_route" then
        (check_route_has_active_trips db (getStrArg tc.args "route_name")).has_trips
      else false) := by
  unfold check_consequences
  simp only [hlast, hhead]
  by_cases h1 : tc.name == "remove_vehicle_from_trip"
  · simp only [h1, if_true]
    cases hb : (check_trip_has_bookings db (getStrArg tc.args "trip_name")).has_bookings <;>
      simp [hb]
  · simp only [h1, Bool.false_eq_true, if_false]
    by_cases h2 : tc.name == "delete_daily_trip"
    · simp only [h2, if_true]
      cases hb : (check_trip_has_bookings db (getStrArg tc.args "trip_name")).has_bookings <;>
        simp [hb]
    · simp only [h2, Bool.false_eq_true, if_false]
      by_cases h3 : tc.name == "deactivate_route"
      · simp only [h3, if_true]
        cases ht : (check_route_has_active_trips db (getStrArg tc.args "route_name")).has_trips <;>
          simp [ht]
      · simp [h3]

/-- C6: the Consequence Evaluator flags risk exactly when the action is
`remove_vehicle_from_trip` or `delete_daily_trip` against an existing
trip with booking percentage strictly above zero, or `deactivate_route`
against an existing route referenced by at least one daily trip; a name
that resolves to no entity yields no risk, reported as percentage `0`
(resp. count `0`) rather than an error, and any other action name
yields no risk regardless of arguments. -/
theorem C6_consequence_evaluator_characterisation
    (db : DB) (s : AgentState) (m : Message) (tc : ToolCall)
    (hlast : s.messages.getLast? = some m)
    (hhead : m.tool_calls.head? = some tc) :
    ((check_consequences db s).1.confirmation_pending = true ↔
      (((tc.name = "remove_vehicle_from_trip" ∨ tc.name = "delete_daily_trip") ∧
        ∃ trip, db.trips.find? (fun t => t.display_name == getStrArg tc.args "trip_name") =
            some trip ∧ trip.booking_status_percentage > 0) ∨
       (tc.name = "deactivate_route" ∧
        ∃ route, db.routes.find? (fun r => r.route_display_name == getStrArg tc.args "route_name") =
            some route ∧ (db.trips.filter (fun t => t.route_id == route.route_id)).length > 0))) ∧
    (∀ n, db.trips.find? (fun t => t.display_name == n) = none →
      check_trip_has_bookings db n = ⟨false, 0⟩) ∧
    (∀ n, db.routes.find? (fun r => r.route_display_name == n) = none →
      check_route_has_active_trips db n = ⟨false, 0⟩) := by
  refine ⟨?_, ?_, ?_⟩
  · rw [check_consequences_pending_eq db s m tc hlast hhead]
    by_cases h1 : tc.name = "remove_vehicle_from_trip"
    · simp [h1, check_trip_has_bookings_true_iff]
    · by_cases h2 : tc.name = "delete_daily_trip"
      · simp [h2, check_trip_has_bookings_true_iff]
      · by_cases h3 : tc.name = "deactivate_route"
        · simp [h1, h2, h3, check_route_has_active_trips_true_iff]
        · simp [h1, h2, h3]
  · intro n hn
    simp [check_trip_has_bookings, hn]
  · intro n hn
    simp [check_route_has_active_trips, hn]

/-- Witness for C6 at the concrete fixture: a proposed
`remove_vehicle_from_trip` on the 25%-booked trip `Bulk - 00:01` is
flagged, and the unknown names report zeroed lookups. -/
theorem C6_witness :
    ((check_consequences exampleDB
        (call_model (exampleState "Remove the vehicle from Bulk - 00:01")
          (proposal "remove_vehicle_from_trip" [("trip_name", .str "Bulk - 00:01")]))).1.confirmation_pending
        = true ↔
      ((("remove_vehicle_from_trip" : String) = "remove_vehicle_from_trip" ∨
         ("remove_vehicle_from_trip" : String) = "delete_daily_trip") ∧
        ∃ trip, exampleDB.trips.find?
            (fun t => t.display_name ==
              getStrArg [("trip_name", Val.str "Bulk - 00:01")] "trip_name") = some trip ∧
          trip.booking_status_percentage > 0) ∨
       (("remove_vehicle_from_trip" : String) = "deactivate_route" ∧
        ∃ route, exampleDB.routes.find?
            (fun r => r.route_display_name ==
              getStrArg [("trip_name", Val.str "Bulk - 00:01")] "route_name") = some route ∧
          (exampleDB.trips.filter (fun t => t.route_id == route.route_id)).length > 0)) ∧
    (∀ n, exampleDB.trips.find? (fun t => t.display_name == n) = none →
      check_trip_has_bookings exampleDB n = ⟨false, 0⟩) ∧
    (∀ n, exampleDB.routes.find? (fun r => r.route_display_name == n) = none →
      check_route_has_active_trips exampleDB n = ⟨false, 0⟩) :=
  C6_consequence_evaluator_characterisation exampleDB
    (call_model (exampleState "Remove the vehicle from Bulk - 00:01")
      (proposal "remove_vehicle_from_trip" [("trip_name", .str "Bulk - 00:01")]))
    (proposal "remove_vehicle_from_trip" [("trip_name", .str "Bulk - 00:01")])
    ⟨"remove_vehicle_from_trip", [("trip_name", .str "Bulk - 00:01")], "call_1"⟩
    (by decide) rfl

/-- Stripping is the identity on a string whose first and last
characters are not whitespace. -/
theorem pyStrip_eq_self_of (s : String)
    (h1 : ∃ c l, s.data = c :: l ∧ c.isWhitespace = false)
    (h2 : ∃ l d, s.data = l ++ [d] ∧ d.isWhitespace = false) :
    pyStrip s = s := by
  obtain ⟨c, l, hcl, hc⟩ := h1
  obtain ⟨l2, d, hld, hd⟩ := h2
  unfold pyStrip
  rw [hcl, List.dropWhile_cons_of_neg (by simp [hc])]
  have hdata : c :: l = l2 ++ [d] := hcl ▸ hld
  rw [hdata, List.reverse_append]
  simp only [List.reverse_cons, List.reverse_nil, List.nil_append, List.singleton_append,
    List.dropWhile_cons_of_neg (by simp [hd] : ¬Char.isWhitespace d = true),
    List.reverse_append, List.reverse_reverse]
  exact String.ext hld.symm

/-- Stripping is the identity on `a ++ mid ++ z` when `a` opens and `z`
closes with a non-whitespace character. -/
theorem pyStrip_sandwich (a mid z : String) (c : Char) (la : List Char) (d : Char) (lz : List Char)
    (ha : a.data = c :: la) (hc : c.isWhitespace = false)
    (hz : z.data = lz ++ [d]) (hd : d.isWhitespace = false) :
    pyStrip (a ++ mid ++ z) = a ++ mid ++ z := by
  apply pyStrip_eq_self_of
  · exact ⟨c, la ++ mid.data ++ z.data, by simp [ha], hc⟩
  · exact ⟨a.data ++ mid.data ++ lz, d, by simp [hz], hd⟩

/-- For every tool other than `get_trip_status`, output formatting is
just Python stripping. -/
theorem format_tool_output_eq_pyStrip (n raw : String)
    (h : (n == "get_trip_status") = false) :
    format_tool_output n raw = pyStrip raw := by
  unfold format_tool_output
  simp [h]

/-- C8: tool execution is total and reports failures as tool-result
messages: an action name absent from the Tool Registry yields a
"not found" tool result with the database untouched and no executor
invocation, and each of the three mutating operations, when its named
subject does not exist, yields a `❌`-prefixed not-found result
(exhibited as the exact message text) instead of raising. -/
theorem C8_action_executor_error_reporting (db : DB) (tc : ToolCall) :
    (tool_names.contains tc.name = false →
      exec_tool_call db tc =
        (db, ToolMessage ("Error: Tool '" ++ tc.name ++ "' not found") tc.id, [])) ∧
    (tc.name = "remove_vehicle_from_trip" →
      db.trips.find? (fun t => t.display_name == getStrArg tc.args "trip_name") = none →
      exec_tool_call db tc =
        (db, ToolMessage ("❌ Trip '" ++ getStrArg tc.args "trip_name" ++ "' not found.") tc.id,
         [.toolExec tc.name tc.args])) ∧
    (tc.name = "delete_daily_trip" →
      db.trips.find? (fun t => t.display_name == getStrArg tc.args "trip_name") = none →
      exec_tool_call db tc =
        (db, ToolMessage ("❌ Trip '" ++ getStrArg tc.args "trip_name" ++ "' not found.") tc.id,
         [.toolExec tc.name tc.args])) ∧
    (tc.name = "deactivate_route" →
      db.routes.find? (fun r => r.route_display_name == getStrArg tc.args "route_name") = none →
      exec_tool_call db tc =
        (db, ToolMessage ("❌ Route '" ++ getStrArg tc.args "route_name" ++ "' not found.") tc.id,
         [.toolExec tc.name tc.args])) := by
  refine ⟨?_, ?_, ?_, ?_⟩
  · intro h
    have h' : tc.name ∉ tool_names := by simpa using h
    unfold exec_tool_call
    simp [h, h']
  · intro hn hfind
    unfold exec_tool_call
    rw [hn]
    have hmem : tool_names.contains "remove_vehicle_from_trip" = true := by decide
    simp only [hmem, if_true]
    rw [show invoke_tool db "remove_vehicle_from_trip" tc.args =
        delete_vehicle_from_trip db (getStrArg tc.args "trip_name") from rfl]
    unfold delete_vehicle_from_trip
    rw [hfind]
    rw [format_tool_output_eq_pyStrip _ _ (by decide),
      pyStrip_sandwich "❌ Trip '" (getStrArg tc.args "trip_name") "' not found."
        '❌' " Trip '".data '.' "' not found".data rfl (by decide) rfl (by decide)]
  · intro hn hfind
    unfold exec_tool_call
    rw [hn]
    have hmem : tool_names.contains "delete_daily_trip" = true := by decide
    simp only [hmem, if_true]
    rw [show invoke_tool db "delete_daily_trip" tc.args =
        delete_daily_trip db (getStrArg tc.args "trip_name") from rfl]
    unfold delete_daily_trip
    rw [hfind]
    rw [format_tool_output_eq_pyStrip _ _ (by decide),
      pyStrip_sandwich "❌ Trip '" (getStrArg tc.args "trip_name") "' not found."
        '❌' " Trip '".data '.' "' not found".data rfl (by decide) rfl (by decide)]
  · intro hn hfind
    unfold exec_tool_call
    rw [hn]
    have hmem : tool_names.contains "deactivate_route" = true := by decide
    simp only [hmem, if_true]
    rw [show invoke_tool db "deactivate_route" tc.args =
        deactivate_route db (getStrArg tc.args "route_name") from rfl]
    unfold deactivate_route
    rw [hfind]
    rw [format_tool_output_eq_pyStrip _ _ (by decide),
      pyStrip_sandwich "❌ Route '" (getStrArg tc.args "route_name") "' not found."
        '❌' " Route '".data '.' "' not found".data rfl (by decide) rfl (by decide)]

/-- Witness for C8: a hallucinated tool name produces the "not found"
result on the concrete fixture, and `deactivate_route` against the
unknown route `Ghost` produces the `❌`-prefixed message with the
database untouched. -/
theorem C8_witness :
    (exec_tool_call exampleDB ⟨"warp_drive", [], "call_9"⟩ =
      (exampleDB, ToolMessage "Error: Tool 'warp_drive' not found" "call_9", [])) ∧
    (exec_tool_call exampleDB ⟨"deactivate_route", [("route_name", .str "Ghost")], "call_8"⟩ =
      (exampleDB, ToolMessage "❌ Route 'Ghost' not found." "call_8",
       [.toolExec "deactivate_route" [("route_name", .str "Ghost")]])) :=
  ⟨(C8_action_executor_error_reporting exampleDB ⟨"warp_drive", [], "call_9"⟩).1 (by decide),
   (C8_action_executor_error_reporting exampleDB
      ⟨"deactivate_route", [("route_name", .str "Ghost")], "call_8"⟩).2.2.2 rfl (by decide)⟩

/-! ## Lemmas about the turn pipeline -/

/-- The last element of a list extended by two elements. -/
theorem getLast?_append_two (l : List α) (a b : α) :
    (l ++ [a, b]).getLast? = some b := by
  rw [show l ++ [a, b] = (l ++ [a]) ++ [b] by simp, List.getLast?_concat]

/-- With no confirmation outstanding, the entry router consults the
reasoning service. -/
theorem start_router_to_model (s : AgentState)
    (hpend : s.confirmation_pending = false) :
    start_router s = .to_model := by
  simp [start_router, hpend]

/-- The reasoning-service node appends its response, so the response is
the newest message afterwards. -/
theorem call_model_getLast (s : AgentState) (llm : Message) :
    (call_model s llm).messages.getLast? = some llm := by
  simp [call_model, List.getLast?_concat]

/-- A response that proposes invocations routes to consequence
checking. -/
theorem should_continue_to_consequences (s : AgentState) (llm : Message)
    (hcalls : llm.tool_calls ≠ []) :
    should_continue_after_model (call_model s llm) = .to_consequences := by
  simp [should_continue_after_model, call_model_getLast, hcalls]

/-- Outcome of the Consequence Evaluator on a risky first invocation:
confirmation becomes pending, the invocation and a `ConsequenceInfo`
are stored, the pause acknowledgment and a warning are appended, and
the trace holds a single read-only lookup. -/
theorem check_consequences_risky (db : DB) (s : AgentState) (m : Message) (tc : ToolCall)
    (hlast : s.messages.getLast? = some m)
    (hhead : m.tool_calls.head? = some tc)
    (hrisk :
      ((tc.name = "remove_vehicle_from_trip" ∨ tc.name = "delete_daily_trip") ∧
        (check_trip_has_bookings db (getStrArg tc.args "trip_name")).has_bookings = true) ∨
      (tc.name = "deactivate_route" ∧
        (check_route_has_active_trips db (getStrArg tc.args "route_name")).has_trips = true)) :
    ∃ ci w qn qa,
      check_consequences db s =
        ({ s with confirmation_pending := true,
                  action_to_confirm := some tc,
                  consequence_info := some ci,
                  messages := s.messages ++ [pause_message tc.id, AIMessage w] },
         [TraceEntry.dbQuery qn qa]) := by
  rcases hrisk with ⟨hn | hn, hb⟩ | ⟨hn, hb⟩
  · refine ⟨.vehicle_removal (getStrArg tc.args "trip_name")
      (check_trip_has_bookings db (getStrArg tc.args "trip_name")).percentage,
      vehicle_removal_warning (getStrArg tc.args "trip_name")
        (check_trip_has_bookings db (getStrArg tc.args "trip_name")).percentage,
      "check_trip_has_bookings", getStrArg tc.args "trip_name", ?_⟩
    unfold check_consequences
    simp [hlast, hhead, hn, hb]
  · refine ⟨.trip_deletion (getStrArg tc.args "trip_name")
      (check_trip_has_bookings db (getStrArg tc.args "trip_name")).percentage,
      trip_deletion_warning (getStrArg tc.args "trip_name")
        (check_trip_has_bookings db (getStrArg tc.args "trip_name")).percentage,
      "check_trip_has_bookings", getStrArg tc.args "trip_name", ?_⟩
    unfold check_consequences
    simp [hlast, hhead, hn, hb]
  · refine ⟨.route_deactivation (getStrArg tc.args "route_name")
      (check_route_has_active_trips db (getStrArg tc.args "route_name")).count,
      route_deactivation_warning (getStrArg tc.args "route_name")
        (check_route_has_active_trips db (getStrArg tc.args "route_name")).count,
      "check_route_has_active_trips", getStrArg tc.args "route_name", ?_⟩
    unfold check_consequences
    simp [hlast, hhead, hn, hb]

/-- The Confirmation Gate leaves everything untouched when the newest
message is not from the user (the state reached immediately after a
pause is stored in this shape). -/
theorem handle_confirmation_non_user (db : DB) (s : AgentState) (m : Message)
    (hlast : s.messages.getLast? = some m)
    (hrole : (m.role == Role.user) = false)
    (hact : s.action_to_confirm.isSome = true) :
    handle_confirmation db s = (db, s, []) := by
  obtain ⟨a, ha⟩ := Option.isSome_iff_exists.mp hact
  unfold handle_confirmation
  simp [hlast, ha, hrole]

/-- Projection form of `check_consequences_risky`: the post-check state
has the pause recorded and the transcript extended by exactly the pause
acknowledgment and a warning. -/
theorem check_consequences_risky' (db : DB) (s : AgentState) (m : Message) (tc : ToolCall)
    (hlast : s.messages.getLast? = some m)
    (hhead : m.tool_calls.head? = some tc)
    (hrisk :
      ((tc.name = "remove_vehicle_from_trip" ∨ tc.name = "delete_daily_trip") ∧
        (check_trip_has_bookings db (getStrArg tc.args "trip_name")).has_bookings = true) ∨
      (tc.name = "deactivate_route" ∧
        (check_route_has_active_trips db (getStrArg tc.args "route_name")).has_trips = true)) :
    ∃ s₂ qn qa,
      check_consequences db s = (s₂, [TraceEntry.dbQuery qn qa]) ∧
      s₂.confirmation_pending = true ∧
      s₂.action_to_confirm = some tc ∧
      s₂.consequence_info.isSome = true ∧
      ∃ w, s₂.messages = s.messages ++ [pause_message tc.id, AIMessage w] := by
  obtain ⟨ci, w, qn, qa, hcheck⟩ := check_consequences_risky db s m tc hlast hhead hrisk
  exact ⟨_, qn, qa, hcheck, rfl, rfl, rfl, w, rfl⟩

/-- C1: a turn whose first proposed invocation is one of the three
risky actions against a subject with impact (nonzero booking
percentage, resp. nonzero referencing-trip count) ends with
`confirmation_pending = true`, that invocation stored as the pending
action and a `ConsequenceInfo` recorded, while the Action Executor is
never invoked and the database — hence every mutating data-service
effect — is untouched (the only data-service interaction is the
read-only consequence lookup). -/
theorem C1_risky_first_invocation_pauses_turn
    (db : DB) (s : AgentState) (llm : Message) (tc : ToolCall)
    (hpend : s.confirmation_pending = false)
    (hhead : llm.tool_calls.head? = some tc)
    (hrisk :
      ((tc.name = "remove_vehicle_from_trip" ∨ tc.name = "delete_daily_trip") ∧
        (check_trip_has_bookings db (getStrArg tc.args "trip_name")).has_bookings = true) ∨
      (tc.name = "deactivate_route" ∧
        (check_route_has_active_trips db (getStrArg tc.args "route_name")).has_trips = true)) :
    (run_turn db s llm).state.confirmation_pending = true ∧
    (run_turn db s llm).state.action_to_confirm = some tc ∧
    (run_turn db s llm).state.consequence_info.isSome = true ∧
    execEntries (run_turn db s llm).trace = [] ∧
    (run_turn db s llm).db = db := by
  have hne : llm.tool_calls ≠ [] := by
    intro h
    rw [h] at hhead
    exact Option.noConfusion hhead
  obtain ⟨s₂, qn, qa, hcheck, hp2, ha2, hci2, w, hm2⟩ :=
    check_consequences_risky' db (call_model s llm) llm tc (call_model_getLast s llm) hhead hrisk
  have hlast2 : s₂.messages.getLast? = some (AIMessage w) := by
    rw [hm2]
    exact getLast?_append_two _ _ _
  have hhc : handle_confirmation db s₂ = (db, s₂, []) :=
    handle_confirmation_non_user db s₂ (AIMessage w) hlast2 rfl (by simp [ha2])
  have hsg : should_get_confirmation s₂ = .to_confirmation := by
    simp [should_get_confirmation, hp2]
  have hrun : run_turn db s llm = ⟨db, s₂, [TraceEntry.dbQuery qn qa]⟩ := by
    simp only [run_turn, start_router_to_model s hpend,
      should_continue_to_consequences s llm hne, hcheck, hsg, hhc, List.append_nil]
  rw [hrun]
  exact ⟨hp2, ha2, hci2, rfl, rfl⟩

/-- Witness for C1: proposing `remove_vehicle_from_trip` on the
25%-booked trip `Bulk - 00:01` pauses the turn on the concrete
fixture. -/
theorem C1_witness :
    (run_turn exampleDB (exampleState "Remove the vehicle from Bulk - 00:01")
        (proposal "remove_vehicle_from_trip" [("trip_name", .str "Bulk - 00:01")])).state.confirmation_pending = true ∧
    (run_turn exampleDB (exampleState "Remove the vehicle from Bulk - 00:01")
        (proposal "remove_vehicle_from_trip" [("trip_name", .str "Bulk - 00:01")])).state.action_to_confirm =
      some ⟨"remove_vehicle_from_trip", [("trip_name", .str "Bulk - 00:01")], "call_1"⟩ ∧
    (run_turn exampleDB (exampleState "Remove the vehicle from Bulk - 00:01")
        (proposal "remove_vehicle_from_trip" [("trip_name", .str "Bulk - 00:01")])).state.consequence_info.isSome = true ∧
    execEntries (run_turn exampleDB (exampleState "Remove the vehicle from Bulk - 00:01")
        (proposal "remove_vehicle_from_trip" [("trip_name", .str "Bulk - 00:01")])).trace = [] ∧
    (run_turn exampleDB (exampleState "Remove the vehicle from Bulk - 00:01")
        (proposal "remove_vehicle_from_trip" [("trip_name", .str "Bulk - 00:01")])).db = exampleDB :=
  C1_risky_first_invocation_pauses_turn exampleDB
    (exampleState "Remove the vehicle from Bulk - 00:01")
    (proposal "remove_vehicle_from_trip" [("trip_name", .str "Bulk - 00:01")])
    ⟨"remove_vehicle_from_trip", [("trip_name", .str "Bulk - 00:01")], "call_1"⟩
    rfl rfl (Or.inl ⟨Or.inl rfl, by decide⟩)

/-- Outcome of the Consequence Evaluator on a safe first invocation
(an unrisky action, or a risky one whose subject shows no impact): the
pending flag is lowered, nothing else changes, and the trace holds no
executor invocation. -/
theorem check_consequences_safe (db : DB) (s : AgentState) (m : Message) (tc : ToolCall)
    (hlast : s.messages.getLast? = some m)
    (hhead : m.tool_calls.head? = some tc)
    (hsafe :
      (tc.name ≠ "remove_vehicle_from_trip" ∧ tc.name ≠ "delete_daily_trip" ∧
        tc.name ≠ "deactivate_route") ∨
      ((tc.name = "remove_vehicle_from_trip" ∨ tc.name = "delete_daily_trip") ∧
        (check_trip_has_bookings db (getStrArg tc.args "trip_name")).has_bookings = false) ∨
      (tc.name = "deactivate_route" ∧
        (check_route_has_active_trips db (getStrArg tc.args "route_name")).has_trips = false)) :
    ∃ tr, check_consequences db s = ({ s with confirmation_pending := false }, tr) ∧
      execEntries tr = [] := by
  unfold check_consequences
  rcases hsafe with ⟨hn1, hn2, hn3⟩ | ⟨hn | hn, hb⟩ | ⟨hn, hb⟩
  · refine ⟨[], ?_, rfl⟩
    simp [hlast, hhead, hn1, hn2, hn3]
  · refine ⟨[.dbQuery "check_trip_has_bookings" (getStrArg tc.args "trip_name")], ?_, rfl⟩
    simp [hlast, hhead, hn, hb]
  · refine ⟨[.dbQuery "check_trip_has_bookings" (getStrArg tc.args "trip_name")], ?_, rfl⟩
    simp [hlast, hhead, hn, hb]
  · refine ⟨[.dbQuery "check_route_has_active_trips" (getStrArg tc.args "route_name")], ?_, rfl⟩
    simp [hlast, hhead, hn, hb]

/-- C2: a turn whose first proposed invocation is safe (any non-risky
action, or a risky action against a subject with zero bookings/trips,
unknown names included) executes **every** proposed invocation of the
response through the Action Executor within the same turn, in order,
and ends with `confirmation_pending` still false. -/
theorem C2_safe_first_invocation_executes_all
    (db : DB) (s : AgentState) (llm : Message) (tc : ToolCall)
    (hpend : s.confirmation_pending = false)
    (hhead : llm.tool_calls.head? = some tc)
    (hreg : ∀ c ∈ llm.tool_calls, tool_names.contains c.name = true)
    (hsafe :
      (tc.name ≠ "remove_vehicle_from_trip" ∧ tc.name ≠ "delete_daily_trip" ∧
        tc.name ≠ "deactivate_route") ∨
      ((tc.name = "remove_vehicle_from_trip" ∨ tc.name = "delete_daily_trip") ∧
        (check_trip_has_bookings db (getStrArg tc.args "trip_name")).has_bookings = false) ∨
      (tc.name = "deactivate_route" ∧
        (check_route_has_active_trips db (getStrArg tc.args "route_name")).has_trips = false)) :
    execEntries (run_turn db s llm).trace =
      llm.tool_calls.map (fun c => (c.name, c.args)) ∧
    (run_turn db s llm).state.confirmation_pending = false := by
  have hne : llm.tool_calls ≠ [] := by
    intro h
    rw [h] at hhead
    exact Option.noConfusion hhead
  have hne' : llm.tool_calls.isEmpty = false := by
    simpa [List.isEmpty_iff] using hne
  obtain ⟨tr, hcheck, htr⟩ :=
    check_consequences_safe db (call_model s llm) llm tc (call_model_getLast s llm) hhead hsafe
  have hct : call_tool db { call_model s llm with confirmation_pending := false } =
      ((exec_tool_calls db llm.tool_calls).1,
       { call_model s llm with confirmation_pending := false, messages := (call_model s llm).messages ++ (exec_tool_calls db llm.tool_calls).2.1 },
       (exec_tool_calls db llm.tool_calls).2.2) := by
    unfold call_tool
    simp [call_model, List.getLast?_concat, hne']
  have hrun : run_turn db s llm =
      ⟨(exec_tool_calls db llm.tool_calls).1,
       { call_model s llm with confirmation_pending := false, messages := (call_model s llm).messages ++ (exec_tool_calls db llm.tool_calls).2.1 },
       tr ++ (exec_tool_calls db llm.tool_calls).2.2⟩ := by
    simp only [run_turn, start_router_to_model s hpend,
      should_continue_to_consequences s llm hne, hcheck, should_get_confirmation, hct,
      if_false, Bool.false_eq_true]
  rw [hrun]
  constructor
  · rw [execEntries_append, htr, execEntries_exec_tool_calls db llm.tool_calls hreg,
      List.nil_append]
  · rfl

/-- Witness for C2: the same request against the unbooked trip
`Empty - 09:00` executes the single proposed invocation immediately and
leaves no confirmation pending on the concrete fixture. -/
theorem C2_witness :
    execEntries (run_turn exampleDB (exampleState "Remove the vehicle from Empty - 09:00")
        (proposal "remove_vehicle_from_trip" [("trip_name", .str "Empty - 09:00")])).trace =
      [("remove_vehicle_from_trip", [("trip_name", Val.str "Empty - 09:00")])] ∧
    (run_turn exampleDB (exampleState "Remove the vehicle from Empty - 09:00")
        (proposal "remove_vehicle_from_trip" [("trip_name", .str "Empty - 09:00")])).state.confirmation_pending = false :=
  C2_safe_first_invocation_executes_all exampleDB
    (exampleState "Remove the vehicle from Empty - 09:00")
    (proposal "remove_vehicle_from_trip" [("trip_name", .str "Empty - 09:00")])
    ⟨"remove_vehicle_from_trip", [("trip_name", .str "Empty - 09:00")], "call_1"⟩
    rfl rfl (by decide) (Or.inr (Or.inl ⟨Or.inl rfl, by decide⟩))

/-- With a confirmation outstanding and the newest message from the
user, the entry router goes straight to the Confirmation Gate. -/
theorem start_router_to_confirmation (s : AgentState) (m : Message)
    (hpend : s.confirmation_pending = true)
    (hlast : s.messages.getLast? = some m)
    (hrole : m.role = .user) :
    start_router s = .to_confirmation := by
  simp [start_router, hpend, hlast, hrole]

/-- A reply in the rejection vocabulary is never in the acceptance
vocabulary. -/
theorem reject_not_accept (r : String)
    (h : reject_words.contains r = true) :
    accept_words.contains r = false := by
  have h' : r = "no" ∨ r = "n" ∨ r = "cancel" ∨ r = "abort" ∨ r = "stop" ∨ r = "nope" := by
    simpa [reject_words] using h
  rcases h' with rfl | rfl | rfl | rfl | rfl | rfl <;> decide

/-- C3: while a confirmation is pending on a registered invocation,
a user reply in the acceptance vocabulary (after lower-casing and
stripping) causes exactly one data-service call, carrying exactly the
stored invocation's action name and argument mapping; the post-turn
state has the confirmation flag lowered, the pending invocation and
consequence info cleared, and the tool result plus a success-or-error
acknowledgment appended. -/
theorem C3_accept_executes_pending_invocation
    (db : DB) (s : AgentState) (llm m : Message) (action : ToolCall)
    (hlast : s.messages.getLast? = some m)
    (hrole : m.role = .user)
    (hpend : s.confirmation_pending = true)
    (hact : s.action_to_confirm = some action)
    (hreg : tool_names.contains action.name = true)
    (hyes : accept_words.contains (pyStrip (pyLower m.content)) = true) :
    (run_turn db s llm).trace = [.toolExec action.name action.args] ∧
    (run_turn db s llm).db = (invoke_tool db action.name action.args).1 ∧
    (run_turn db s llm).state.confirmation_pending = false ∧
    (run_turn db s llm).state.action_to_confirm = none ∧
    (run_turn db s llm).state.consequence_info = none ∧
    (run_turn db s llm).state.messages = s.messages ++
      [ToolMessage (invoke_tool db action.name action.args).2 action.id,
       AIMessage ("✅ Action completed\n\n" ++ (invoke_tool db action.name action.args).2)] := by
  have hyes' : pyStrip (pyLower m.content) ∈ accept_words := by simpa using hyes
  have hreg' : action.name ∈ tool_names := by simpa using hreg
  have hhc : handle_confirmation db s =
      ((invoke_tool db action.name action.args).1,
       { s with messages := s.messages ++ [ToolMessage (invoke_tool db action.name action.args).2 action.id, AIMessage ("✅ Action completed\n\n" ++ (invoke_tool db action.name action.args).2)], confirmation_pending := false, action_to_confirm := none, consequence_info := none },
       [.toolExec action.name action.args]) := by
    unfold handle_confirmation
    simp [hlast, hact, hrole, hyes', hreg']
  have hrun : run_turn db s llm =
      ⟨(invoke_tool db action.name action.args).1,
       { s with messages := s.messages ++ [ToolMessage (invoke_tool db action.name action.args).2 action.id, AIMessage ("✅ Action completed\n\n" ++ (invoke_tool db action.name action.args).2)], confirmation_pending := false, action_to_confirm := none, consequence_info := none },
       [.toolExec action.name action.args]⟩ := by
    simp only [run_turn, start_router_to_confirmation s m hpend hlast hrole, hhc]
  rw [hrun]
  exact ⟨rfl, rfl, rfl, rfl, rfl, rfl⟩

/-- Witness for C3: replying `Yes ` to the pending vehicle removal on
the concrete fixture executes exactly that removal. -/
theorem C3_witness :
    (run_turn exampleDB
        { exampleState "remove" with confirmation_pending := true, action_to_confirm := some ⟨"remove_vehicle_from_trip", [("trip_name", .str "Bulk - 00:01")], "call_1"⟩, messages := [HumanMessage "Yes "] }
        (AIMessage "unused")).trace =
      [.toolExec "remove_vehicle_from_trip" [("trip_name", .str "Bulk - 00:01")]] ∧
    (run_turn exampleDB
        { exampleState "remove" with confirmation_pending := true, action_to_confirm := some ⟨"remove_vehicle_from_trip", [("trip_name", .str "Bulk - 00:01")], "call_1"⟩, messages := [HumanMessage "Yes "] }
        (AIMessage "unused")).db =
      (invoke_tool exampleDB "remove_vehicle_from_trip" [("trip_name", .str "Bulk - 00:01")]).1 ∧
    (run_turn exampleDB
        { exampleState "remove" with confirmation_pending := true, action_to_confirm := some ⟨"remove_vehicle_from_trip", [("trip_name", .str "Bulk - 00:01")], "call_1"⟩, messages := [HumanMessage "Yes "] }
        (AIMessage "unused")).state.confirmation_pending = false ∧
    (run_turn exampleDB
        { exampleState "remove" with confirmation_pending := true, action_to_confirm := some ⟨"remove_vehicle_from_trip", [("trip_name", .str "Bulk - 00:01")], "call_1"⟩, messages := [HumanMessage "Yes "] }
        (AIMessage "unused")).state.action_to_confirm = none ∧
    (run_turn exampleDB
        { exampleState "remove" with confirmation_pending := true, action_to_confirm := some ⟨"remove_vehicle_from_trip", [("trip_name", .str "Bulk - 00:01")], "call_1"⟩, messages := [HumanMessage "Yes "] }
        (AIMessage "unused")).state.consequence_info = none ∧
    (run_turn exampleDB
        { exampleState "remove" with confirmation_pending := true, action_to_confirm := some ⟨"remove_vehicle_from_trip", [("trip_name", .str "Bulk - 00:01")], "call_1"⟩, messages := [HumanMessage "Yes "] }
        (AIMessage "unused")).state.messages =
      [HumanMessage "Yes "] ++
        [ToolMessage (invoke_tool exampleDB "remove_vehicle_from_trip" [("trip_name", .str "Bulk - 00:01")]).2 "call_1",
         AIMessage ("✅ Action completed\n\n" ++ (invoke_tool exampleDB "remove_vehicle_from_trip" [("trip_name", .str "Bulk - 00:01")]).2)] :=
  C3_accept_executes_pending_invocation exampleDB
    { exampleState "remove" with confirmation_pending := true, action_to_confirm := some ⟨"remove_vehicle_from_trip", [("trip_name", .str "Bulk - 00:01")], "call_1"⟩, messages := [HumanMessage "Yes "] }
    (AIMessage "unused") (HumanMessage "Yes ")
    ⟨"remove_vehicle_from_trip", [("trip_name", .str "Bulk - 00:01")], "call_1"⟩
    rfl rfl rfl rfl (by decide) (by decide)

/-- C4: while a confirmation is pending, a user reply in the rejection
vocabulary clears the confirmation flag, the pending invocation and the
consequence info, appends the cancellation acknowledgment, and the data
service receives zero calls — the database comes back unchanged with an
empty trace. -/
theorem C4_reject_cancels_without_calls
    (db : DB) (s : AgentState) (llm m : Message) (action : ToolCall)
    (hlast : s.messages.getLast? = some m)
    (hrole : m.role = .user)
    (hpend : s.confirmation_pending = true)
    (hact : s.action_to_confirm = some action)
    (hno : reject_words.contains (pyStrip (pyLower m.content)) = true) :
    run_turn db s llm =
      ⟨db,
       { s with messages := s.messages ++ [AIMessage cancel_text], confirmation_pending := false, action_to_confirm := none, consequence_info := none },
       []⟩ := by
  have hno' : pyStrip (pyLower m.content) ∈ reject_words := by simpa using hno
  have hnotyes : pyStrip (pyLower m.content) ∉ accept_words := by
    simpa using reject_not_accept _ hno
  have hhc : handle_confirmation db s =
      (db,
       { s with messages := s.messages ++ [AIMessage cancel_text], confirmation_pending := false, action_to_confirm := none, consequence_info := none },
       []) := by
    unfold handle_confirmation
    simp [hlast, hact, hrole, hno', hnotyes]
  simp only [run_turn, start_router_to_confirmation s m hpend hlast hrole, hhc]

/-- Witness for C4: replying `NO` to the pending vehicle removal on the
concrete fixture cancels it with an untouched database and empty
trace. -/
theorem C4_witness :
    run_turn exampleDB
      { exampleState "remove" with confirmation_pending := true, action_to_confirm := some ⟨"remove_vehicle_from_trip", [("trip_name", .str "Bulk - 00:01")], "call_1"⟩, messages := [HumanMessage "NO"] }
      (AIMessage "unused") =
    ⟨exampleDB,
     { exampleState "remove" with messages := [HumanMessage "NO"] ++ [AIMessage cancel_text], confirmation_pending := false, action_to_confirm := none, consequence_info := none },
     []⟩ :=
  C4_reject_cancels_without_calls exampleDB
    { exampleState "remove" with confirmation_pending := true, action_to_confirm := some ⟨"remove_vehicle_from_trip", [("trip_name", .str "Bulk - 00:01")], "call_1"⟩, messages := [HumanMessage "NO"] }
    (AIMessage "unused") (HumanMessage "NO")
    ⟨"remove_vehicle_from_trip", [("trip_name", .str "Bulk - 00:01")], "call_1"⟩
    rfl rfl rfl rfl (by decide)

/-- C5: while a confirmation is pending, a user reply outside both
vocabularies produces a turn whose entire result is the old state with
exactly one appended re-ask message: flag, pending invocation,
consequence info, page context and existing transcript all unchanged,
database unchanged, and an empty data-service trace. -/
theorem C5_unclear_reply_only_reasks
    (db : DB) (s : AgentState) (llm m : Message) (action : ToolCall)
    (hlast : s.messages.getLast? = some m)
    (hrole : m.role = .user)
    (hpend : s.confirmation_pending = true)
    (hact : s.action_to_confirm = some action)
    (hnotyes : accept_words.contains (pyStrip (pyLower m.content)) = false)
    (hnotno : reject_words.contains (pyStrip (pyLower m.content)) = false) :
    run_turn db s llm =
      ⟨db, { s with messages := s.messages ++ [AIMessage reask_text] }, []⟩ := by
  have hnotyes' : pyStrip (pyLower m.content) ∉ accept_words := by simpa using hnotyes
  have hnotno' : pyStrip (pyLower m.content) ∉ reject_words := by simpa using hnotno
  have hhc : handle_confirmation db s =
      (db, { s with messages := s.messages ++ [AIMessage reask_text] }, []) := by
    unfold handle_confirmation
    simp [hlast, hact, hrole, hnotyes', hnotno']
  simp only [run_turn, start_router_to_confirmation s m hpend hlast hrole, hhc]

/-- Witness for C5: replying `maybe` to the pending vehicle removal on
the concrete fixture leaves everything unchanged except the appended
re-ask message. -/
theorem C5_witness :
    run_turn exampleDB
      { exampleState "remove" with confirmation_pending := true, action_to_confirm := some ⟨"remove_vehicle_from_trip", [("trip_name", .str "Bulk - 00:01")], "call_1"⟩, messages := [HumanMessage "maybe"] }
      (AIMessage "unused") =
    ⟨exampleDB,
     { exampleState "remove" with confirmation_pending := true, action_to_confirm := some ⟨"remove_vehicle_from_trip", [("trip_name", Val.str "Bulk - 00:01")], "call_1"⟩, messages := [HumanMessage "maybe"] ++ [AIMessage reask_text] },
     []⟩ :=
  C5_unclear_reply_only_reasks exampleDB
    { exampleState "remove" with confirmation_pending := true, action_to_confirm := some ⟨"remove_vehicle_from_trip", [("trip_name", .str "Bulk - 00:01")], "call_1"⟩, messages := [HumanMessage "maybe"] }
    (AIMessage "unused") (HumanMessage "maybe")
    ⟨"remove_vehicle_from_trip", [("trip_name", .str "Bulk - 00:01")], "call_1"⟩
    rfl rfl rfl rfl (by decide) (by decide)

/-- Every first invocation is either risky (one of the three guarded
actions with impact) or safe (anything else, or a guarded action with a
zero reading) in the sense of the Consequence Evaluator. -/
theorem risk_classification (db : DB) (tc : ToolCall) :
    (((tc.name = "remove_vehicle_from_trip" ∨ tc.name = "delete_daily_trip") ∧
        (check_trip_has_bookings db (getStrArg tc.args "trip_name")).has_bookings = true) ∨
      (tc.name = "deactivate_route" ∧
        (check_route_has_active_trips db (getStrArg tc.args "route_name")).has_trips = true)) ∨
    ((tc.name ≠ "remove_vehicle_from_trip" ∧ tc.name ≠ "delete_daily_trip" ∧
        tc.name ≠ "deactivate_route") ∨
      ((tc.name = "remove_vehicle_from_trip" ∨ tc.name = "delete_daily_trip") ∧
        (check_trip_has_bookings db (getStrArg tc.args "trip_name")).has_bookings = false) ∨
      (tc.name = "deactivate_route" ∧
        (check_route_has_active_trips db (getStrArg tc.args "route_name")).has_trips = false)) := by
  by_cases h1 : tc.name = "remove_vehicle_from_trip"
  · cases hb : (check_trip_has_bookings db (getStrArg tc.args "trip_name")).has_bookings
    · exact Or.inr (Or.inr (Or.inl ⟨Or.inl h1, rfl⟩))
    · exact Or.inl (Or.inl ⟨Or.inl h1, rfl⟩)
  · by_cases h2 : tc.name = "delete_daily_trip"
    · cases hb : (check_trip_has_bookings db (getStrArg tc.args "trip_name")).has_bookings
      · exact Or.inr (Or.inr (Or.inl ⟨Or.inr h2, rfl⟩))
      · exact Or.inl (Or.inl ⟨Or.inr h2, rfl⟩)
    · by_cases h3 : tc.name = "deactivate_route"
      · cases ht : (check_route_has_active_trips db (getStrArg tc.args "route_name")).has_trips
        · exact Or.inr (Or.inr (Or.inr ⟨h3, rfl⟩))
        · exact Or.inl (Or.inr ⟨h3, rfl⟩)
      · exact Or.inr (Or.inl ⟨h1, h2, h3⟩)

/-- Tool execution only appends messages: the confirmation flag and the
pending invocation pass through `call_tool` unchanged. -/
theorem call_tool_flags (db : DB) (s : AgentState) :
    (call_tool db s).2.1.confirmation_pending = s.confirmation_pending ∧
    (call_tool db s).2.1.action_to_confirm = s.action_to_confirm := by
  unfold call_tool
  cases h : s.messages.getLast? with
  | none => exact ⟨rfl, rfl⟩
  | some last =>
    by_cases he : last.tool_calls.isEmpty = true <;> simp [he]

/-- C9: every turn that starts on a fresh user message preserves the
SessionState invariant "`confirmation_pending` iff a pending invocation
is stored", and the defensive path — confirmation handling entered with
the flag raised but no stored invocation — ends the turn with the
confirmation state cleared.  Both facts are about the total function
`run_turn`, so no exception can propagate to the caller. -/
theorem C9_confirmation_invariant_preserved
    (db : DB) (s : AgentState) (llm m : Message)
    (hlast : s.messages.getLast? = some m)
    (hrole : m.role = .user) :
    ((s.confirmation_pending = true ↔ s.action_to_confirm.isSome = true) →
      ((run_turn db s llm).state.confirmation_pending = true ↔
        (run_turn db s llm).state.action_to_confirm.isSome = true)) ∧
    (s.confirmation_pending = true → s.action_to_confirm = none →
      (run_turn db s llm).state.confirmation_pending = false ∧
      (run_turn db s llm).state.action_to_confirm = none) := by
  by_cases hp : s.confirmation_pending = true
  · -- confirmation path
    have hroute : start_router s = .to_confirmation :=
      start_router_to_confirmation s m hp hlast hrole
    cases hact : s.action_to_confirm with
    | none =>
      have hhc : handle_confirmation db s =
          (db, { s with confirmation_pending := false, action_to_confirm := none }, []) := by
        unfold handle_confirmation
        simp [hlast, hact]
      have hrun : run_turn db s llm =
          ⟨db, { s with confirmation_pending := false, action_to_confirm := none }, []⟩ := by
        simp only [run_turn, hroute, hhc]
      rw [hrun]
      exact ⟨fun _ => by simp, fun _ _ => ⟨rfl, rfl⟩⟩
    | some a =>
      refine ⟨fun _ => ?_, fun _ hnone => Option.noConfusion hnone⟩
      have hrun : (run_turn db s llm).state = (handle_confirmation db s).2.1 := by
        simp only [run_turn, hroute]
      rw [hrun]
      unfold handle_confirmation
      rw [hlast, hact]
      simp only [hrole]
      by_cases hy : accept_words.contains (pyStrip (pyLower m.content)) = true
      · by_cases hr : tool_names.contains a.name = true
        · have hy' : pyStrip (pyLower m.content) ∈ accept_words := by simpa using hy
          have hr' : a.name ∈ tool_names := by simpa using hr
          simp [hy', hr']
        · have hy' : pyStrip (pyLower m.content) ∈ accept_words := by simpa using hy
          have hr' : a.name ∉ tool_names := by simpa using hr
          simp [hy', hr']
      · have hy' : pyStrip (pyLower m.content) ∉ accept_words := by simpa using hy
        by_cases hn : reject_words.contains (pyStrip (pyLower m.content)) = true
        · have hn' : pyStrip (pyLower m.content) ∈ reject_words := by simpa using hn
          simp [hy', hn']
        · have hn' : pyStrip (pyLower m.content) ∉ reject_words := by simpa using hn
          simp [hy', hn', hp, hact]
  · -- model path
    have hp' : s.confirmation_pending = false := by
      cases h : s.confirmation_pending
      · rfl
      · exact absurd h hp
    refine ⟨fun hiff => ?_, fun htrue _ => absurd htrue hp⟩
    have hanone : s.action_to_confirm = none := by
      cases h : s.action_to_confirm with
      | none => rfl
      | some a =>
        have : s.confirmation_pending = true := hiff.mpr (by simp [h])
        exact absurd this hp
    cases hcalls : llm.tool_calls with
    | nil =>
      have hend : should_continue_after_model (call_model s llm) = .to_end := by
        simp [should_continue_after_model, call_model_getLast, hcalls]
      have hrun : run_turn db s llm = ⟨db, call_model s llm, []⟩ := by
        simp only [run_turn, start_router_to_model s hp', hend]
      rw [hrun]
      simp [call_model, hp', hanone]
    | cons tc rest =>
      have hne : llm.tool_calls ≠ [] := by rw [hcalls]; exact List.cons_ne_nil tc rest
      have hhead : llm.tool_calls.head? = some tc := by rw [hcalls]; rfl
      rcases risk_classification db tc with hrisk | hsafe
      · obtain ⟨s₂, qn, qa, hcheck, hp2, ha2, _, w, hm2⟩ :=
          check_consequences_risky' db (call_model s llm) llm tc (call_model_getLast s llm)
            hhead hrisk
        have hlast2 : s₂.messages.getLast? = some (AIMessage w) := by
          rw [hm2]
          exact getLast?_append_two _ _ _
        have hhc : handle_confirmation db s₂ = (db, s₂, []) :=
          handle_confirmation_non_user db s₂ (AIMessage w) hlast2 rfl (by simp [ha2])
        have hsg : should_get_confirmation s₂ = .to_confirmation := by
          simp [should_get_confirmation, hp2]
        have hrun : run_turn db s llm = ⟨db, s₂, [TraceEntry.dbQuery qn qa]⟩ := by
          simp only [run_turn, start_router_to_model s hp',
            should_continue_to_consequences s llm hne, hcheck, hsg, hhc, List.append_nil]
        rw [hrun]
        simp [hp2, ha2]
      · obtain ⟨tr, hcheck, _⟩ :=
          check_consequences_safe db (call_model s llm) llm tc (call_model_getLast s llm)
            hhead hsafe
        have hrun : (run_turn db s llm).state =
            (call_tool db { call_model s llm with confirmation_pending := false }).2.1 := by
          simp only [run_turn, start_router_to_model s hp',
            should_continue_to_consequences s llm hne, hcheck, should_get_confirmation,
            Bool.false_eq_true, if_false]
        have hflags := call_tool_flags db { call_model s llm with confirmation_pending := false }
        rw [hrun, hflags.1, hflags.2]
        simp [call_model, hanone]

/-- Witness for C9 at the concrete fixture: a fresh user turn with no
confirmation outstanding preserves the invariant, instantiated on the
safe proposal, and the defensive clause holds vacuously. -/
theorem C9_witness :
    (exampleState "hello").messages.getLast? = some (HumanMessage "hello") ∧
    ((((exampleState "hello").confirmation_pending = true ↔
        (exampleState "hello").action_to_confirm.isSome = true) →
      ((run_turn exampleDB (exampleState "hello")
          (proposal "get_trip_status" [("trip_name", .str "Bulk - 00:01")])).state.confirmation_pending = true ↔
        (run_turn exampleDB (exampleState "hello")
          (proposal "get_trip_status" [("trip_name", .str "Bulk - 00:01")])).state.action_to_confirm.isSome = true)) ∧
    ((exampleState "hello").confirmation_pending = true →
      (exampleState "hello").action_to_confirm = none →
      (run_turn exampleDB (exampleState "hello")
          (proposal "get_trip_status" [("trip_name", .str "Bulk - 00:01")])).state.confirmation_pending = false ∧
      (run_turn exampleDB (exampleState "hello")
          (proposal "get_trip_status" [("trip_name", .str "Bulk - 00:01")])).state.action_to_confirm = none)) :=
  ⟨rfl,
   C9_confirmation_invariant_preserved exampleDB (exampleState "hello")
     (proposal "get_trip_status" [("trip_name", .str "Bulk - 00:01")])
     (HumanMessage "hello") rfl rfl⟩

end Movi
